import Mathlib

/-! The command `service wait` of docker-utils.

A shallow embedding of `command/service/wait.go`: the status aggregator
`GetServicesWaitStatus`, the snapshot fetcher `collectServiceStatus` and the
poll loop of `runList`, followed by the properties proved about them.

Conventions.
* `uint64` values are natural numbers; every `uint64` addition of the source
  is followed by `% U64`.
* A Go `map[string]V` is an association list with at most one pair per key
  (`GoMap V`); reading a missing key yields the zero value (`GoMap.getD`).
* A Go pointer or a nilable value is an `Option`.
-/

namespace DockerUtils

/-! ## Machine integers and maps -/

/-- The modulus of `uint64` arithmetic. -/
def U64 : Nat := 2 ^ 64

/-- A Go `map[string]V`: pairs key/value, at most one per key. -/
abbrev GoMap (V : Type) := List (String × V)

namespace GoMap

/-- The empty map, `map[string]V{}`. -/
def empty {V : Type} : GoMap V := []

/-- The lookup `v, ok := m[k]`. -/
def get? {V : Type} : GoMap V → String → Option V
  | [], _ => none
  | (k', v) :: r, k => if k' = k then some v else get? r k

/-- The read `m[k]`, which yields the zero value `d` of a missing key. -/
def getD {V : Type} (m : GoMap V) (k : String) (d : V) : V :=
  (m.get? k).getD d

/-- The assignment `m[k] = v`. -/
def set {V : Type} : GoMap V → String → V → GoMap V
  | [], k, v => [(k, v)]
  | (k', v') :: r, k, v => if k' = k then (k, v) :: r else (k', v') :: set r k v

/-- The keys of the map. -/
def keys {V : Type} (m : GoMap V) : List String := m.map Prod.fst

end GoMap

/-! ## Data model (the fields of the swarm API types that the code reads) -/

/-- The type `swarm.ReplicatedService`: `Replicas *uint64`. -/
structure ReplicatedService where
  Replicas : Option Nat
  deriving DecidableEq, Repr

/-- The type `swarm.GlobalService`, an empty struct. -/
structure GlobalService where
  deriving DecidableEq, Repr

/-- The type `swarm.ServiceMode`: two pointers, either of which may be nil. -/
structure ServiceMode where
  Replicated : Option ReplicatedService
  Global : Option GlobalService
  deriving DecidableEq, Repr

/-- The type `swarm.Placement`: `MaxReplicas uint64`. -/
structure Placement where
  MaxReplicas : Nat
  deriving DecidableEq, Repr

/-- The type `swarm.TaskSpec`: `Placement *Placement`. -/
structure TaskSpec where
  Placement : Option Placement
  deriving DecidableEq, Repr

/-- The type `swarm.ServiceSpec`. -/
structure ServiceSpec where
  Name : String
  Mode : ServiceMode
  TaskTemplate : TaskSpec
  deriving DecidableEq, Repr

/-- The type `swarm.Service`. -/
structure Service where
  ID : String
  Spec : ServiceSpec
  deriving DecidableEq, Repr

/-- The type `swarm.NodeStatus`; `State` is a `swarm.NodeState`, a string. -/
structure NodeStatus where
  State : String
  deriving DecidableEq, Repr

/-- The type `swarm.Node`. -/
structure Node where
  ID : String
  Status : NodeStatus
  deriving DecidableEq, Repr

/-- The type `swarm.TaskStatus`; `State` is a `swarm.TaskState`, a string. -/
structure TaskStatus where
  State : String
  deriving DecidableEq, Repr

/-- The type `swarm.Task`. -/
structure Task where
  ServiceID : String
  NodeID : String
  DesiredState : String
  Status : TaskStatus
  deriving DecidableEq, Repr

/-- The constant `swarm.NodeStateDown`. -/
def NodeStateDown : String := "down"

/-- The constant `swarm.TaskStateShutdown`. -/
def TaskStateShutdown : String := "shutdown"

/-- The constant `swarm.TaskStateRunning`. -/
def TaskStateRunning : String := "running"

/-- Modelled from the spec: the struct `ListInfo` embedded in `WaitInfo` is declared in a
file of the package that is not part of the sources at hand; it carries the mode label
and the human-readable ratio description of a service. -/
structure ListInfo where
  Mode : String
  Replicas : String
  deriving DecidableEq, Repr

/-- The type `WaitInfo` (`ListInfo` is embedded, so its fields are promoted). -/
structure WaitInfo extends ListInfo where
  Expected : Nat
  Running : Nat
  deriving DecidableEq, Repr

/-- The type `WaitInfoSummary`. -/
structure WaitInfoSummary where
  Expected : Nat
  Running : Nat
  deriving DecidableEq, Repr

/-- The zero value `WaitInfo{}`. -/
def WaitInfo.zero : WaitInfo :=
  { Mode := "", Replicas := "", Expected := 0, Running := 0 }

/-- The zero value `WaitInfoSummary{}`. -/
def WaitInfoSummary.zero : WaitInfoSummary := { Expected := 0, Running := 0 }

/-! ## The status aggregator `GetServicesWaitStatus` -/

/-- The verb `%d` of `fmt.Sprintf` on a `uint64`. -/
def fmtD (n : Nat) : String := toString n

/-- First loop of `GetServicesWaitStatus`: the set `activeNodes` of the IDs of the
nodes whose state is not `down`, extended from `acc`. -/
def activeNodesFrom (acc : GoMap Unit) (nodes : List Node) : GoMap Unit :=
  nodes.foldl
    (fun m n => if n.Status.State ≠ NodeStateDown then m.set n.ID () else m) acc

/-- The map `activeNodes` as the first loop leaves it. -/
def activeNodes (nodes : List Node) : GoMap Unit := activeNodesFrom GoMap.empty nodes

/-- The two counters of the second loop. -/
structure Counters where
  running : GoMap Nat
  tasksNoShutdown : GoMap Nat
  deriving DecidableEq, Repr

/-- The increment `m[k]++` on a `map[string]uint64`. -/
def incr (m : GoMap Nat) (k : String) : GoMap Nat :=
  m.set k ((m.getD k 0 + 1) % U64)

/-- One iteration of the second loop, on one task. -/
def countTask (active : GoMap Unit) (c : Counters) (task : Task) : Counters :=
  let c1 : Counters :=
    if task.DesiredState ≠ TaskStateShutdown then
      { c with tasksNoShutdown := incr c.tasksNoShutdown task.ServiceID }
    else c
  if (active.get? task.NodeID).isSome ∧ task.Status.State = TaskStateRunning then
    { c1 with running := incr c1.running task.ServiceID }
  else c1

/-- Second loop of `GetServicesWaitStatus`, from the counters `c`. -/
def countTasksFrom (active : GoMap Unit) (c : Counters) (tasks : List Task) : Counters :=
  tasks.foldl (countTask active) c

/-- Second loop of `GetServicesWaitStatus`, from empty counters. -/
def countTasks (active : GoMap Unit) (tasks : List Task) : Counters :=
  countTasksFrom active { running := GoMap.empty, tasksNoShutdown := GoMap.empty } tasks

/-- The map `info` and the struct `summary` that the third loop builds. -/
structure Status where
  info : GoMap WaitInfo
  summary : WaitInfoSummary
  deriving DecidableEq, Repr

/-- One iteration of the third loop, on one service. The first `match` is the test
`Replicated != nil && Replicated.Replicas != nil`, the second one the test
`Placement != nil && Placement.MaxReplicas > 0`, the third one `Global != nil`. -/
def addService (c : Counters) (st : Status) (service : Service) : Status :=
  let info0 := st.info.set service.ID WaitInfo.zero
  let run := c.running.getD service.ID 0
  match service.Spec.Mode.Replicated.bind (fun r => r.Replicas) with
  | some replicas =>
    match service.Spec.TaskTemplate.Placement.filter (fun p => p.MaxReplicas > 0) with
    | some p =>
      { info := info0.set service.ID
          { Mode := "replicated"
            Replicas := fmtD run ++ "/" ++ fmtD replicas ++ " (max " ++
              fmtD p.MaxReplicas ++ " per node)"
            Expected := replicas
            Running := run }
        summary :=
          { Running := (st.summary.Running + run) % U64
            Expected := (st.summary.Expected + replicas) % U64 } }
    | none =>
      { info := info0.set service.ID
          { Mode := "replicated"
            Replicas := fmtD run ++ "/" ++ fmtD replicas
            Expected := replicas
            Running := run }
        summary :=
          { Running := (st.summary.Running + run) % U64
            Expected := (st.summary.Expected + replicas) % U64 } }
  | none =>
    match service.Spec.Mode.Global with
    | some _ =>
      let noShutdown := c.tasksNoShutdown.getD service.ID 0
      { info := info0.set service.ID
          { Mode := "global"
            Replicas := fmtD run ++ "/" ++ fmtD noShutdown
            Expected := noShutdown
            Running := run }
        summary :=
          { Running := (st.summary.Running + run) % U64
            Expected := (st.summary.Expected + noShutdown) % U64 } }
    | none => { info := info0, summary := st.summary }

/-- The function `GetServicesWaitStatus`. -/
def GetServicesWaitStatus (services : List Service) (nodes : List Node)
    (tasks : List Task) : GoMap WaitInfo × WaitInfoSummary :=
  let c := countTasks (activeNodes nodes) tasks
  let st := services.foldl (addService c)
    { info := GoMap.empty, summary := WaitInfoSummary.zero }
  (st.info, st.summary)

/-! ## The snapshot fetcher `collectServiceStatus` -/

/-- A Go `error` value, identified with its message; `nil` is `none : Option Error`. -/
structure Error where
  msg : String
  deriving DecidableEq, Repr

/-- The type `filters.Args` of the Docker API: a map from a filter name to the set of
its values (`map[string]map[string]bool`). -/
abbrev Args := GoMap (GoMap Bool)

/-- The function `filters.NewArgs()`. -/
def Args.NewArgs : Args := GoMap.empty

/-- The method `Args.Add(key, value)`: `fields[key][value] = true`, on a fresh inner
map when `key` is new. -/
def Args.Add (args : Args) (key value : String) : Args :=
  GoMap.set args key (GoMap.set (GoMap.getD args key GoMap.empty) value true)

/-- What the cluster API answers during one cycle: `TaskList` as a function of the
filter it is given, and `NodeList` (always called with empty options). -/
structure APIClient where
  TaskList : Args → Except Error (List Task)
  NodeList : Except Error (List Node)

/-- A call made to the cluster API. -/
inductive ApiCall where
  | taskList (filter : Args)
  | nodeList
  deriving DecidableEq, Repr

/-- The three results of `collectServiceStatus` (a nilable map, a nilable pointer
and an `error`), and the API calls it made, oldest first. -/
structure Collected where
  info : Option (GoMap WaitInfo)
  summary : Option WaitInfoSummary
  err : Option Error
  calls : List ApiCall
  deriving DecidableEq, Repr

/-- The loop of `collectServiceStatus` that builds `taskFilter`. -/
def taskFilter (services : List Service) : Args :=
  services.foldl (fun f service => f.Add "service" service.ID) Args.NewArgs

/-- The function `collectServiceStatus`. -/
def collectServiceStatus (client : APIClient) (services : List Service) : Collected :=
  if services.length > 0 then
    match client.TaskList (taskFilter services) with
    | .error e =>
      { info := none, summary := none, err := some e
        calls := [ApiCall.taskList (taskFilter services)] }
    | .ok tasks =>
      match client.NodeList with
      | .error e =>
        { info := none, summary := none, err := some e
          calls := [ApiCall.taskList (taskFilter services), ApiCall.nodeList] }
      | .ok nodes =>
        { info := some (GetServicesWaitStatus services nodes tasks).1
          summary := some (GetServicesWaitStatus services nodes tasks).2
          err := none
          calls := [ApiCall.taskList (taskFilter services), ApiCall.nodeList] }
  else
    { info := some GoMap.empty, summary := some WaitInfoSummary.zero, err := none, calls := [] }

/-! ## The poll loop of `runList`

The goroutine of `runList` is a state machine driven by the timer events it receives in
its `select`. Its sends on the unbuffered channels `outputChan` and `doneChan` are
received by the main loop in the order in which they are made, so the run of `runList`
is determined by the sequence of timer events and by the answers of the API. -/

/-- A timer event received by the `select` of the goroutine. -/
inductive Event where
  | tick
  | timeout
  deriving DecidableEq, Repr

/-- Where the goroutine stands: still polling, done after `doneChan <- true`, done after
`doneChan <- false`, or stopped by the nil dereference of `summary.Expected`. -/
inductive LoopState where
  | Running
  | Completed
  | TimedOut
  | Panicked
  deriving DecidableEq, Repr

/-- The goroutine: its state, the number of calls of `collectServiceStatus` so far, the
values sent on `outputChan` (oldest first), the number of timer events received, and
whether it has called `cancel()`. -/
structure Loop where
  state : LoopState
  cycles : Nat
  emitted : List (Option (GoMap WaitInfo))
  handled : Nat
  cancelled : Bool
  deriving DecidableEq, Repr

/-- The test `summary.Expected <= summary.Running` on the pointer that
`collectServiceStatus` returned: `none` is the dereference of a nil pointer. -/
def completionTest (summary : Option WaitInfoSummary) : Option Bool :=
  summary.map (fun s => decide (s.Expected ≤ s.Running))

/-- The state after a cycle that sends `info` and then tests `summary`. -/
def afterTest (summary : Option WaitInfoSummary) : LoopState :=
  match completionTest summary with
  | none => LoopState.Panicked
  | some true => LoopState.Completed
  | some false => LoopState.Running

/-- Cycle 0 of the goroutine (lines 77 to 82); `api n` is what the cluster API answers
during the `n`-th call of `collectServiceStatus`. The error of the call is discarded. -/
def cycle0 (api : Nat → APIClient) (services : List Service) : Loop :=
  let r := collectServiceStatus (api 0) services
  { state := afterTest r.summary, cycles := 1, emitted := [r.info], handled := 0
    cancelled := false }

/-- One pass of the `for`/`select` of the goroutine on the event `e` (lines 84 to 102). A
goroutine that has returned or panicked receives no event. -/
def step (api : Nat → APIClient) (services : List Service) (l : Loop) (e : Event) : Loop :=
  match l.state with
  | LoopState.Running =>
    let r := collectServiceStatus (api l.cycles) services
    match e with
    | Event.timeout =>
      { state := LoopState.TimedOut, cycles := l.cycles + 1
        emitted := l.emitted ++ [r.info], handled := l.handled + 1, cancelled := true }
    | Event.tick =>
      { state := afterTest r.summary, cycles := l.cycles + 1
        emitted := l.emitted ++ [r.info], handled := l.handled + 1
        cancelled := l.cancelled }
  | _ => l

/-- The goroutine of `runList` on the timer events `events`. -/
def pollLoop (api : Nat → APIClient) (services : List Service) (events : List Event) : Loop :=
  events.foldl (step api services) (cycle0 api services)

/-- What surrounds a run of `runList`: the answer of `ServiceList`, the order
`sortorder.NaturalLess` on names, the answers of the API per cycle, the timer events in
the order in which the goroutine receives them, the renderer `WaitListFormatWrite`
(format and output stream fixed) and the method `Write` of the output stream. -/
structure Env where
  ServiceList : Except Error (List Service)
  NaturalLess : String → String → Bool
  api : Nat → APIClient
  events : List Event
  WaitListFormatWrite : List Service → Option (GoMap WaitInfo) → Option Error
  Write : String → Option Error

/-- How a run of `runList` ends: it returns its `error`; or it waits for a timer event
beyond the ones given; or it blocks for ever in its `select`, no goroutine being there to
send; or the process stops on the panic of the goroutine. -/
inductive Outcome where
  | returned (err : Option Error)
  | waiting
  | deadlock
  | crashed
  deriving DecidableEq, Repr

/-- A run of `runList`: its outcome, the goroutine if one was started, the snapshots
handed to `WaitListFormatWrite` and the strings handed to `Write`, oldest first. -/
structure Run where
  outcome : Outcome
  loop : Option Loop
  rendered : List (Option (GoMap WaitInfo))
  written : List String
  deriving DecidableEq, Repr

/-- The call of `sort.Slice` in `runList`: a service moves in front of another one only
when its name is less, so services of equal names keep their order, as with the
insertion sort that `sort.Slice` runs on a short slice. -/
def sortServices (less : String → String → Bool) (services : List Service) : List Service :=
  services.insertionSort (fun a b => ¬ less b.Spec.Name a.Spec.Name = true)

/-- The case `info := <-outputChan` of the main loop, over the values sent: each one is
rendered, and the first error of the renderer is returned. -/
def renderAll (render : Option (GoMap WaitInfo) → Option Error) :
    List (Option (GoMap WaitInfo)) → List (Option (GoMap WaitInfo)) × Option Error
  | [] => ([], none)
  | info :: rest =>
    match render info with
    | some e => ([info], some e)
    | none => (info :: (renderAll render rest).1, (renderAll render rest).2)

/-- The error that `runList` returns on a timeout. -/
def timeoutError : Error := { msg := "timeout reached while waiting for the services" }

/-- The function `runList`. The goroutine is started only for a non-empty list; the main
loop then receives what the goroutine sends, in order: every snapshot is rendered (the
first error of the renderer is returned at once), and the value received on `doneChan`
decides between the notice with a nil error and the timeout error. When the goroutine
panics the process stops; when no goroutine was started the main loop has nobody to
receive from. -/
def runList (env : Env) : Run :=
  match env.ServiceList with
  | .error e =>
    { outcome := Outcome.returned (some e), loop := none, rendered := [], written := [] }
  | .ok listed =>
    let services := sortServices env.NaturalLess listed
    if services.length > 0 then
      let l := pollLoop env.api services env.events
      match renderAll (env.WaitListFormatWrite services) l.emitted with
      | (rendered, some e) =>
        { outcome := Outcome.returned (some e), loop := some l, rendered := rendered
          written := [] }
      | (rendered, none) =>
        match l.state with
        | LoopState.Completed =>
          { outcome := Outcome.returned (env.Write "\nAll services booted up\n")
            loop := some l, rendered := rendered, written := ["\nAll services booted up\n"] }
        | LoopState.TimedOut =>
          { outcome := Outcome.returned (some timeoutError)
            loop := some l, rendered := rendered, written := ["\n"] }
        | LoopState.Panicked =>
          { outcome := Outcome.crashed, loop := some l, rendered := rendered, written := [] }
        | LoopState.Running =>
          { outcome := Outcome.waiting, loop := some l, rendered := rendered, written := [] }
    else
      { outcome := Outcome.deadlock, loop := none, rendered := [], written := [] }

/-! ## The aggregator with explicit pointer dereferences

The third loop of `GetServicesWaitStatus` written with every dereference of the
source (`*service.Spec.Mode.Replicated.Replicas`, `service.Spec.Mode.Replicated.Replicas`,
`service.Spec.TaskTemplate.Placement.MaxReplicas`) as an operation that fails on a
nil pointer: `none` is the panic of a nil dereference. -/

/-- The dereference of a pointer, which panics (`none`) on nil. -/
def deref {α : Type} (p : Option α) : Option α := p

/-- The test `Replicated != nil && Replicated.Replicas != nil` (line 204); the right
operand of `&&` is evaluated only when the left one holds. -/
def replicatedTest (service : Service) : Option Bool :=
  if service.Spec.Mode.Replicated.isSome then
    (deref service.Spec.Mode.Replicated).bind (fun r => some r.Replicas.isSome)
  else some false

/-- The test `Placement != nil && Placement.MaxReplicas > 0` (line 205). -/
def placementTest (service : Service) : Option Bool :=
  if service.Spec.TaskTemplate.Placement.isSome then
    (deref service.Spec.TaskTemplate.Placement).bind (fun p => some (decide (p.MaxReplicas > 0)))
  else some false

/-- The value `*service.Spec.Mode.Replicated.Replicas`. -/
def derefReplicas (service : Service) : Option Nat :=
  (deref service.Spec.Mode.Replicated).bind (fun r => deref r.Replicas)

/-- The value `service.Spec.TaskTemplate.Placement.MaxReplicas`. -/
def derefMaxReplicas (service : Service) : Option Nat :=
  (deref service.Spec.TaskTemplate.Placement).bind (fun p => some p.MaxReplicas)

/-- One iteration of the third loop (lines 203 to 239) with its dereferences. -/
def addServiceChecked (c : Counters) (st : Status) (service : Service) : Option Status :=
  let info0 := st.info.set service.ID WaitInfo.zero
  let run := c.running.getD service.ID 0
  (replicatedTest service).bind fun isReplicated =>
  if isReplicated then
    (placementTest service).bind fun hasMax =>
    if hasMax then
      (derefReplicas service).bind fun replicas =>
      (derefMaxReplicas service).bind fun maxReplicas =>
      some
        { info := info0.set service.ID
            { Mode := "replicated"
              Replicas := fmtD run ++ "/" ++ fmtD replicas ++ " (max " ++
                fmtD maxReplicas ++ " per node)"
              Expected := replicas
              Running := run }
          summary :=
            { Running := (st.summary.Running + run) % U64
              Expected := (st.summary.Expected + replicas) % U64 } }
    else
      (derefReplicas service).bind fun replicas =>
      some
        { info := info0.set service.ID
            { Mode := "replicated"
              Replicas := fmtD run ++ "/" ++ fmtD replicas
              Expected := replicas
              Running := run }
          summary :=
            { Running := (st.summary.Running + run) % U64
              Expected := (st.summary.Expected + replicas) % U64 } }
  else if service.Spec.Mode.Global.isSome then
    let noShutdown := c.tasksNoShutdown.getD service.ID 0
    some
      { info := info0.set service.ID
          { Mode := "global"
            Replicas := fmtD run ++ "/" ++ fmtD noShutdown
            Expected := noShutdown
            Running := run }
        summary :=
          { Running := (st.summary.Running + run) % U64
            Expected := (st.summary.Expected + noShutdown) % U64 } }
  else some { info := info0, summary := st.summary }

/-- The third loop with its dereferences: it stops at the first panic. -/
def addServicesChecked (c : Counters) : Status → List Service → Option Status
  | st, [] => some st
  | st, service :: rest => (addServiceChecked c st service).bind fun st1 =>
      addServicesChecked c st1 rest

/-- The function `GetServicesWaitStatus` with its dereferences: `none` when a nil
pointer is dereferenced, else the map and the summary behind the returned pointer. The
first two loops read struct fields and maps only. -/
def GetServicesWaitStatusChecked (services : List Service) (nodes : List Node)
    (tasks : List Task) : Option (GoMap WaitInfo × WaitInfoSummary) :=
  (addServicesChecked (countTasks (activeNodes nodes) tasks)
    { info := GoMap.empty, summary := WaitInfoSummary.zero } services).map
    (fun st => (st.info, st.summary))

/-! ## The duration options of `opts.go` -/

/-- The type `time.Duration`: an `int64` number of nanoseconds. -/
abbrev Duration := Int

/-- The option type `DurationOpt`: `value *time.Duration`. -/
structure DurationOpt where
  value : Option Duration
  deriving DecidableEq, Repr

/-- The method `DurationOpt.Set`; `parse` is `time.ParseDuration`, taken as given: the
duration and the `error` it returns. The option afterwards and the returned `error`. -/
def DurationOpt.Set (parse : String → Duration × Option Error) (_d : DurationOpt)
    (s : String) : DurationOpt × Option Error :=
  ({ value := some (parse s).1 }, (parse s).2)

/-- The method `DurationOpt.Value`. -/
def DurationOpt.Value (d : DurationOpt) : Option Duration := d.value

/-- The option type `PositiveDurationOpt`, which embeds `DurationOpt`. -/
structure PositiveDurationOpt where
  DurationOpt : DurationOpt
  deriving DecidableEq, Repr

/-- The method `PositiveDurationOpt.Set`: the option afterwards and the returned
`error`; `none` is the panic of dereferencing a nil `value`. -/
def PositiveDurationOpt.Set (parse : String → Duration × Option Error)
    (d : PositiveDurationOpt) (s : String) : Option (PositiveDurationOpt × Option Error) :=
  match DurationOpt.Set parse d.DurationOpt s with
  | (d1, some err) => some ({ DurationOpt := d1 }, some err)
  | (d1, none) =>
    (deref d1.value).bind fun v =>
    if v < 0 then some ({ DurationOpt := d1 }, some { msg := "duration cannot be negative" })
    else some ({ DurationOpt := d1 }, none)

/-- The method `Value` that `PositiveDurationOpt` inherits from `DurationOpt`. -/
def PositiveDurationOpt.Value (d : PositiveDurationOpt) : Option Duration :=
  d.DurationOpt.Value

/-! ## The command `wait` -/

/-- The struct `waitOptions`; the filter acts through the answer of `ServiceList`. -/
structure waitOptions where
  quiet : Bool
  format : String
  interval : Duration
  timeout : Duration
  deriving DecidableEq, Repr

/-- One minute, in nanoseconds. -/
def minute : Duration := 60000000000

/-- The options with the default values of the flags (lines 43 to 47). -/
def defaultWaitOptions : waitOptions :=
  { quiet := false, format := "", interval := 1 * minute, timeout := 10 * minute }

/-- A duration flag on the command line, with its argument. -/
inductive DurationFlag where
  | timeout (value : String)
  | interval (value : String)
  deriving DecidableEq, Repr

/-- The argument of a duration flag. -/
def DurationFlag.value : DurationFlag → String
  | DurationFlag.timeout v => v
  | DurationFlag.interval v => v

/-- The flag set assigning one flag registered by `flags.DurationVar` (lines 46 and 47):
the argument goes through `time.ParseDuration` and, unless the parser fails, is stored in
the field of the options. A failure carries the name of the flag. -/
def setDurationFlag (parse : String → Duration × Option Error) (o : waitOptions)
    (f : DurationFlag) : Except (String × Error) waitOptions :=
  match f with
  | DurationFlag.timeout v =>
    match (parse v).2 with
    | some e => .error ("timeout", e)
    | none => .ok { o with timeout := (parse v).1 }
  | DurationFlag.interval v =>
    match (parse v).2 with
    | some e => .error ("interval", e)
    | none => .ok { o with interval := (parse v).1 }

/-- The flags of the command line, assigned in order from the options `o`. -/
def setDurationFlags (parse : String → Duration × Option Error) :
    waitOptions → List DurationFlag → Except (String × Error) waitOptions
  | o, [] => .ok o
  | o, f :: rest =>
    match setDurationFlag parse o f with
    | .error e => .error e
    | .ok o1 => setDurationFlags parse o1 rest

/-- What an invocation of the command `wait` does: it is rejected on a flag whose
argument does not parse, before `RunE`; or `RunE` calls `runList` with the options. -/
inductive Invocation where
  | rejected (flag : String) (err : Error)
  | ran (options : waitOptions) (run : Run)
  deriving DecidableEq, Repr

/-- The command built by `newWaitCommand`, executed on the duration flags `args`. The
durations of the options reach `runList` through the two timers only (lines 74 and 75),
whose events, in the order received, are `env.events`. -/
def newWaitCommand (parse : String → Duration × Option Error) (args : List DurationFlag)
    (env : Env) : Invocation :=
  match setDurationFlags parse defaultWaitOptions args with
  | .error (flag, e) => Invocation.rejected flag e
  | .ok options => Invocation.ran options (runList env)

/-! ## Vocabulary of the statements -/

/-- The replica count of a service whose `Replicated` mode carries one. -/
def Service.replicas? (s : Service) : Option Nat :=
  s.Spec.Mode.Replicated.bind (fun r => r.Replicas)

/-- A service is classified when it is replicated with a replica count, or global. -/
def Service.classified (s : Service) : Bool :=
  s.replicas?.isSome || s.Spec.Mode.Global.isSome

/-- Some listed node has the ID `id` and a state other than `down`. -/
def nodeActive (nodes : List Node) (id : String) : Bool :=
  nodes.any (fun n => decide (n.ID = id ∧ n.Status.State ≠ NodeStateDown))

/-- The number of tasks of service `id` observed running on an active node. -/
def runningCount (nodes : List Node) (tasks : List Task) (id : String) : Nat :=
  tasks.countP (fun t => decide (t.ServiceID = id ∧ t.Status.State = TaskStateRunning ∧
    nodeActive nodes t.NodeID = true))

/-- The number of tasks of service `id` whose desired state is not `shutdown`. -/
def noShutdownCount (tasks : List Task) (id : String) : Nat :=
  tasks.countP (fun t => decide (t.ServiceID = id ∧ t.DesiredState ≠ TaskStateShutdown))

/-- The entry that one iteration of the third loop stores for `service`. -/
def serviceEntry (c : Counters) (service : Service) : WaitInfo :=
  (addService c { info := GoMap.empty, summary := WaitInfoSummary.zero } service).info.getD
    service.ID WaitInfo.zero

/-! ## Sample inputs -/

/-- A node in state `ready`. -/
def sampleNode (id : String) : Node := { ID := id, Status := { State := "ready" } }

/-- A node in state `down`. -/
def sampleDownNode (id : String) : Node := { ID := id, Status := { State := NodeStateDown } }

/-- A task of `service` on `node`, desired and observed in the given states. -/
def sampleTask (service node desired observed : String) : Task :=
  { ServiceID := service, NodeID := node, DesiredState := desired
    Status := { State := observed } }

/-- A replicated service: `replicas` is the pointer `Replicated.Replicas`, `placement`
the pointer `TaskTemplate.Placement`. -/
def sampleReplicated (id : String) (replicas : Option Nat) (placement : Option Placement) :
    Service :=
  { ID := id
    Spec :=
      { Name := id
        Mode := { Replicated := some { Replicas := replicas }, Global := none }
        TaskTemplate := { Placement := placement } } }

/-- A global service. -/
def sampleGlobal (id : String) : Service :=
  { ID := id
    Spec :=
      { Name := id
        Mode := { Replicated := none, Global := some {} }
        TaskTemplate := { Placement := none } } }

/-- A service with neither mode set. -/
def sampleUnset (id : String) : Service :=
  { ID := id
    Spec :=
      { Name := id
        Mode := { Replicated := none, Global := none }
        TaskTemplate := { Placement := none } } }

/-- Two nodes up and one node down. -/
def sampleNodes : List Node := [sampleNode "n1", sampleNode "n2", sampleDownNode "n3"]

/-- Tasks of service `web`: two running on nodes that are up, one running on the node
that is down, one running on a node that is not listed, one starting. -/
def sampleWebTasks : List Task :=
  [sampleTask "web" "n1" "running" "running", sampleTask "web" "n2" "running" "running",
   sampleTask "web" "n3" "running" "running", sampleTask "web" "n9" "running" "running",
   sampleTask "web" "n1" "running" "starting"]

/-- Tasks of service `agent`: four not to be shut down on nodes that are up, three of
them running, and one shut down. -/
def sampleAgentTasks : List Task :=
  [sampleTask "agent" "n1" "running" "running", sampleTask "agent" "n2" "running" "running",
   sampleTask "agent" "n1" "running" "running", sampleTask "agent" "n2" "running" "pending",
   sampleTask "agent" "n1" "shutdown" "shutdown"]

/-- Tasks of service `web`: three running on nodes that are up. -/
def sampleWebTasksUp : List Task :=
  sampleWebTasks ++ [sampleTask "web" "n2" "running" "running"]

/-- An API that answers with the given tasks and with `sampleNodes`. -/
def sampleClient (tasks : List Task) : APIClient :=
  { TaskList := fun _ => .ok tasks, NodeList := .ok sampleNodes }

/-- An API whose `TaskList` fails. -/
def sampleTaskListFailure (e : Error) : APIClient :=
  { TaskList := fun _ => .error e, NodeList := .ok sampleNodes }

/-- An API whose `NodeList` fails. -/
def sampleNodeListFailure (e : Error) : APIClient :=
  { TaskList := fun _ => .ok sampleWebTasks, NodeList := .error e }

/-- A run that watches the services `listed`, on the API answers `api` and the timer
events `events`, with a renderer and an output stream that never fail. -/
def sampleEnv (listed : List Service) (api : Nat → APIClient) (events : List Event) : Env :=
  { ServiceList := .ok listed
    NaturalLess := fun a b => decide (a < b)
    api := api
    events := events
    WaitListFormatWrite := fun _ _ => none
    Write := fun _ => none }

/-- The service `web`, replicated with three replicas. -/
def sampleWeb : Service := sampleReplicated "web" (some 3) none

/-- What `time.ParseDuration` returns on four strings. -/
def sampleParseDuration (s : String) : Duration × Option Error :=
  if s = "-1s" then (-1000000000, none)
  else if s = "0s" then (0, none)
  else if s = "1m" then (60000000000, none)
  else (0, some { msg := "time: invalid duration" })

/-- The service `db`, replicated with one replica. -/
def sampleDb : Service := sampleReplicated "db" (some 1) none

/-- The service `cache`, replicated with one replica. -/
def sampleCache : Service := sampleReplicated "cache" (some 1) none

/-- Two tasks of `cache` running on nodes that are up, and none of `db`. -/
def sampleCacheTasks : List Task :=
  [sampleTask "cache" "n1" "running" "running", sampleTask "cache" "n2" "running" "running"]

/-- A replicated service that wants `2^63` replicas. -/
def sampleHuge (id : String) : Service := sampleReplicated id (some (2 ^ 63)) none

/-- An order on names that compares them character by character. -/
def sampleLess (a b : String) : Bool :=
  decide (a.data.map Char.toNat < b.data.map Char.toNat)

/-! ## Lemmas on maps -/

namespace GoMap

theorem get?_set_self {V : Type} (m : GoMap V) (k : String) (v : V) :
    (m.set k v).get? k = some v := by
  induction m with
  | nil => simp [set, get?]
  | cons a r ih =>
    obtain ⟨k', v'⟩ := a
    by_cases h : k' = k
    · simp [set, get?, h]
    · simp [set, get?, h, ih]

theorem get?_set_ne {V : Type} (m : GoMap V) (k k' : String) (v : V) (h : k ≠ k') :
    (m.set k v).get? k' = m.get? k' := by
  induction m with
  | nil => simp [set, get?, h]
  | cons a r ih =>
    obtain ⟨k₀, v₀⟩ := a
    by_cases h₀ : k₀ = k
    · subst h₀
      simp [set, get?, h]
    · by_cases h₁ : k₀ = k'
      · subst h₁
        simp [set, get?, h₀]
      · simp [set, get?, h₀, h₁, ih]

theorem getD_set_self {V : Type} (m : GoMap V) (k : String) (v d : V) :
    (m.set k v).getD k d = v := by
  simp [getD, get?_set_self]

theorem getD_set_ne {V : Type} (m : GoMap V) (k k' : String) (v d : V) (h : k ≠ k') :
    (m.set k v).getD k' d = m.getD k' d := by
  simp [getD, get?_set_ne m k k' v h]

theorem set_set {V : Type} (m : GoMap V) (k : String) (v w : V) :
    (m.set k v).set k w = m.set k w := by
  induction m with
  | nil => simp [set]
  | cons a r ih =>
    obtain ⟨k₀, v₀⟩ := a
    by_cases h₀ : k₀ = k
    · simp [set, h₀]
    · simp [set, h₀, ih]

theorem set_of_not_mem {V : Type} (m : GoMap V) (k : String) (v : V) (h : k ∉ m.keys) :
    m.set k v = m ++ [(k, v)] := by
  induction m with
  | nil => simp [set]
  | cons a r ih =>
    obtain ⟨k₀, v₀⟩ := a
    simp only [keys, List.map_cons, List.mem_cons, not_or] at h
    have h₀ : ¬ k₀ = k := fun e => h.1 e.symm
    simp [set, h₀, ih (by simpa [keys] using h.2)]

theorem keys_set {V : Type} (m : GoMap V) (k k' : String) (v : V) :
    k' ∈ (m.set k v).keys ↔ k' = k ∨ k' ∈ m.keys := by
  induction m with
  | nil => simp [set, keys]
  | cons a r ih =>
    obtain ⟨k₀, v₀⟩ := a
    by_cases h₀ : k₀ = k
    · subst h₀
      simp [set, keys]
    · have ih' : k' ∈ List.map Prod.fst (set r k v) ↔ k' = k ∨ k' ∈ List.map Prod.fst r := ih
      simp only [set, h₀, if_false, keys, List.map_cons, List.mem_cons, ih']
      tauto

theorem get?_isSome_iff {V : Type} (m : GoMap V) (k : String) :
    (m.get? k).isSome = true ↔ k ∈ m.keys := by
  induction m with
  | nil => simp [get?, keys]
  | cons a r ih =>
    obtain ⟨k₀, v₀⟩ := a
    have ih' : (get? r k).isSome = true ↔ k ∈ List.map Prod.fst r := ih
    by_cases h₀ : k₀ = k
    · simp [get?, keys, h₀]
    · have h₁ : ¬ k = k₀ := fun e => h₀ e.symm
      simp [get?, keys, h₀, h₁, ih']

end GoMap

/-! ## Lemmas on the three loops of the aggregator -/

theorem activeNodesFrom_isSome (nodes : List Node) (acc : GoMap Unit) (k : String) :
    ((activeNodesFrom acc nodes).get? k).isSome = ((acc.get? k).isSome || nodeActive nodes k) := by
  induction nodes generalizing acc with
  | nil => simp [activeNodesFrom, nodeActive]
  | cons n r ih =>
    have hstep : activeNodesFrom acc (n :: r) =
        activeNodesFrom (if n.Status.State ≠ NodeStateDown then acc.set n.ID () else acc) r := rfl
    rw [hstep, ih]
    have hany : nodeActive (n :: r) k =
        (decide (n.ID = k ∧ n.Status.State ≠ NodeStateDown) || nodeActive r k) := by
      simp [nodeActive]
    rw [hany]
    by_cases hd : n.Status.State = NodeStateDown
    · simp [hd]
    · by_cases hk : n.ID = k
      · subst hk
        simp [hd, GoMap.get?_set_self]
      · simp [hd, hk, GoMap.get?_set_ne acc n.ID k () hk]

theorem activeNodes_isSome (nodes : List Node) (k : String) :
    ((activeNodes nodes).get? k).isSome = nodeActive nodes k := by
  simp [activeNodes, activeNodesFrom_isSome, GoMap.empty, GoMap.get?]

theorem incr_getD (m : GoMap Nat) (k k' : String) :
    (incr m k).getD k' 0 = if k = k' then (m.getD k' 0 + 1) % U64 else m.getD k' 0 := by
  by_cases h : k = k'
  · subst h
    simp [incr, GoMap.getD_set_self]
  · simp [incr, h, GoMap.getD_set_ne m k k' _ 0 h]

theorem countTask_running (active : GoMap Unit) (c : Counters) (t : Task) (k : String) :
    (countTask active c t).running.getD k 0 =
      if t.ServiceID = k ∧ t.Status.State = TaskStateRunning ∧ (active.get? t.NodeID).isSome = true
      then (c.running.getD k 0 + 1) % U64 else c.running.getD k 0 := by
  unfold countTask
  by_cases h1 : t.DesiredState = TaskStateShutdown <;>
    by_cases h2 : (active.get? t.NodeID).isSome = true <;>
    by_cases h3 : t.Status.State = TaskStateRunning <;>
    by_cases h4 : t.ServiceID = k <;>
    simp [h1, h2, h3, h4, incr_getD]

theorem countTask_noShutdown (active : GoMap Unit) (c : Counters) (t : Task) (k : String) :
    (countTask active c t).tasksNoShutdown.getD k 0 =
      if t.ServiceID = k ∧ t.DesiredState ≠ TaskStateShutdown
      then (c.tasksNoShutdown.getD k 0 + 1) % U64 else c.tasksNoShutdown.getD k 0 := by
  unfold countTask
  by_cases h1 : t.DesiredState = TaskStateShutdown <;>
    by_cases h2 : (active.get? t.NodeID).isSome = true <;>
    by_cases h3 : t.Status.State = TaskStateRunning <;>
    by_cases h4 : t.ServiceID = k <;>
    simp [h1, h2, h3, h4, incr_getD]

/-- A fold that adds one modulo `2^64` to a quantity on the items that satisfy `p`
leaves the quantity increased by the number of such items, modulo `2^64`. -/
theorem fold_count_mod {σ α : Type} (g : σ → Nat) (p : α → Bool) (step : σ → α → σ)
    (hstep : ∀ c t, g (step c t) = if p t = true then (g c + 1) % U64 else g c)
    (l : List α) (c : σ) (hc : g c < U64) :
    g (l.foldl step c) = (g c + l.countP p) % U64 := by
  induction l generalizing c with
  | nil => simp [Nat.mod_eq_of_lt hc]
  | cons t r ih =>
    have hlt : g (step c t) < U64 := by
      rw [hstep]
      split
      · exact Nat.mod_lt _ (by decide)
      · exact hc
    rw [List.foldl_cons, ih _ hlt, hstep, List.countP_cons]
    by_cases hp : p t = true
    · simp only [hp, if_true]
      rw [Nat.mod_add_mod]
      congr 1
      omega
    · simp [hp]

theorem countTasks_running (nodes : List Node) (tasks : List Task) (k : String) :
    (countTasks (activeNodes nodes) tasks).running.getD k 0 =
      runningCount nodes tasks k % U64 := by
  have h := fold_count_mod (fun c : Counters => c.running.getD k 0)
    (fun t : Task => decide (t.ServiceID = k ∧ t.Status.State = TaskStateRunning ∧
      nodeActive nodes t.NodeID = true))
    (countTask (activeNodes nodes))
    (by
      intro c t
      show (countTask (activeNodes nodes) c t).running.getD k 0 = _
      rw [countTask_running, activeNodes_isSome]
      simp)
    tasks { running := GoMap.empty, tasksNoShutdown := GoMap.empty }
    (by simp [GoMap.empty, GoMap.getD, GoMap.get?, U64])
  simpa [countTasks, countTasksFrom, runningCount, GoMap.empty, GoMap.getD, GoMap.get?] using h

theorem countTasks_noShutdown (active : GoMap Unit) (tasks : List Task) (k : String) :
    (countTasks active tasks).tasksNoShutdown.getD k 0 = noShutdownCount tasks k % U64 := by
  have h := fold_count_mod (fun c : Counters => c.tasksNoShutdown.getD k 0)
    (fun t : Task => decide (t.ServiceID = k ∧ t.DesiredState ≠ TaskStateShutdown))
    (countTask active)
    (by
      intro c t
      show (countTask active c t).tasksNoShutdown.getD k 0 = _
      rw [countTask_noShutdown]
      simp)
    tasks { running := GoMap.empty, tasksNoShutdown := GoMap.empty }
    (by simp [GoMap.empty, GoMap.getD, GoMap.get?, U64])
  simpa [countTasks, countTasksFrom, noShutdownCount, GoMap.empty, GoMap.getD, GoMap.get?] using h

theorem runningCount_le (nodes : List Node) (tasks : List Task) (k : String) :
    runningCount nodes tasks k ≤ tasks.length := List.countP_le_length _

theorem noShutdownCount_le (tasks : List Task) (k : String) :
    noShutdownCount tasks k ≤ tasks.length := List.countP_le_length _

theorem serviceEntry_replicated_max (c : Counters) (s : Service) (d : Nat) (p : Placement)
    (hd : s.replicas? = some d) (hp : s.Spec.TaskTemplate.Placement = some p)
    (hm : 0 < p.MaxReplicas) :
    serviceEntry c s =
      { Mode := "replicated"
        Replicas := fmtD (c.running.getD s.ID 0) ++ "/" ++ fmtD d ++ " (max " ++
          fmtD p.MaxReplicas ++ " per node)"
        Expected := d
        Running := c.running.getD s.ID 0 } := by
  unfold Service.replicas? at hd
  simp [serviceEntry, addService, hd, hp, hm, Option.filter, GoMap.set_set,
    GoMap.getD_set_self]

theorem serviceEntry_replicated (c : Counters) (s : Service) (d : Nat)
    (hd : s.replicas? = some d)
    (hp : ∀ p, s.Spec.TaskTemplate.Placement = some p → p.MaxReplicas = 0) :
    serviceEntry c s =
      { Mode := "replicated"
        Replicas := fmtD (c.running.getD s.ID 0) ++ "/" ++ fmtD d
        Expected := d
        Running := c.running.getD s.ID 0 } := by
  unfold Service.replicas? at hd
  cases hpl : s.Spec.TaskTemplate.Placement with
  | none =>
    simp [serviceEntry, addService, hd, hpl, Option.filter, GoMap.set_set,
      GoMap.getD_set_self]
  | some p =>
    have h0 : p.MaxReplicas = 0 := hp p hpl
    simp [serviceEntry, addService, hd, hpl, h0, Option.filter, GoMap.set_set,
      GoMap.getD_set_self]

theorem serviceEntry_global (c : Counters) (s : Service) (g : GlobalService)
    (hd : s.replicas? = none) (hg : s.Spec.Mode.Global = some g) :
    serviceEntry c s =
      { Mode := "global"
        Replicas := fmtD (c.running.getD s.ID 0) ++ "/" ++ fmtD (c.tasksNoShutdown.getD s.ID 0)
        Expected := c.tasksNoShutdown.getD s.ID 0
        Running := c.running.getD s.ID 0 } := by
  unfold Service.replicas? at hd
  simp [serviceEntry, addService, hd, hg, GoMap.set_set, GoMap.getD_set_self]

theorem serviceEntry_unclassified (c : Counters) (s : Service)
    (hd : s.replicas? = none) (hg : s.Spec.Mode.Global = none) :
    serviceEntry c s = WaitInfo.zero := by
  unfold Service.replicas? at hd
  simp [serviceEntry, addService, hd, hg, GoMap.getD_set_self]

theorem addService_info (c : Counters) (st : Status) (s : Service) :
    (addService c st s).info = st.info.set s.ID (serviceEntry c s) := by
  cases hd : s.replicas? with
  | some d =>
    cases hpl : s.Spec.TaskTemplate.Placement with
    | none =>
      rw [serviceEntry_replicated c s d hd (by simp [hpl])]
      unfold Service.replicas? at hd
      simp [addService, hd, hpl, Option.filter, GoMap.set_set]
    | some p =>
      by_cases hm : 0 < p.MaxReplicas
      · rw [serviceEntry_replicated_max c s d p hd hpl hm]
        unfold Service.replicas? at hd
        simp [addService, hd, hpl, hm, Option.filter, GoMap.set_set]
      · have h0 : p.MaxReplicas = 0 := by omega
        rw [serviceEntry_replicated c s d hd (by
          intro q hq
          rw [hpl] at hq
          cases hq
          exact h0)]
        unfold Service.replicas? at hd
        simp [addService, hd, hpl, h0, Option.filter, GoMap.set_set]
  | none =>
    cases hg : s.Spec.Mode.Global with
    | none =>
      rw [serviceEntry_unclassified c s hd hg]
      unfold Service.replicas? at hd
      simp [addService, hd, hg]
    | some g =>
      rw [serviceEntry_global c s g hd hg]
      unfold Service.replicas? at hd
      simp [addService, hd, hg, GoMap.set_set]

theorem addService_summary (c : Counters) (st : Status) (s : Service) :
    (addService c st s).summary =
      if s.classified = true then
        { Expected := (st.summary.Expected + (serviceEntry c s).Expected) % U64
          Running := (st.summary.Running + (serviceEntry c s).Running) % U64 }
      else st.summary := by
  cases hd : s.replicas? with
  | some d =>
    have hc : s.classified = true := by simp [Service.classified, hd]
    cases hpl : s.Spec.TaskTemplate.Placement with
    | none =>
      rw [serviceEntry_replicated c s d hd (by simp [hpl])]
      unfold Service.replicas? at hd
      simp [addService, hd, hpl, hc, Option.filter]
    | some p =>
      by_cases hm : 0 < p.MaxReplicas
      · rw [serviceEntry_replicated_max c s d p hd hpl hm]
        unfold Service.replicas? at hd
        simp [addService, hd, hpl, hm, hc, Option.filter]
      · have h0 : p.MaxReplicas = 0 := by omega
        rw [serviceEntry_replicated c s d hd (by
          intro q hq
          rw [hpl] at hq
          cases hq
          exact h0)]
        unfold Service.replicas? at hd
        simp [addService, hd, hpl, h0, hc, Option.filter]
  | none =>
    cases hg : s.Spec.Mode.Global with
    | none =>
      have hc : s.classified = false := by simp [Service.classified, hd, hg]
      unfold Service.replicas? at hd
      simp [addService, hd, hg, hc]
    | some g =>
      have hc : s.classified = true := by simp [Service.classified, hd, hg]
      rw [serviceEntry_global c s g hd hg]
      unfold Service.replicas? at hd
      simp [addService, hd, hg, hc]

theorem serviceEntry_of_not_classified (c : Counters) (s : Service)
    (h : s.classified = false) : serviceEntry c s = WaitInfo.zero := by
  simp only [Service.classified, Bool.or_eq_false_iff] at h
  apply serviceEntry_unclassified
  · cases hd : s.replicas? with
    | none => rfl
    | some d => simp [hd] at h
  · cases hg : s.Spec.Mode.Global with
    | none => rfl
    | some g => simp [hg] at h

theorem foldl_addService_keys (c : Counters) (l : List Service) (st : Status) (k : String) :
    k ∈ (l.foldl (addService c) st).info.keys ↔ k ∈ st.info.keys ∨ k ∈ l.map Service.ID := by
  induction l generalizing st with
  | nil => simp
  | cons s r ih =>
    rw [List.foldl_cons, ih, addService_info, GoMap.keys_set]
    simp only [List.map_cons, List.mem_cons]
    tauto

theorem foldl_addService_info (c : Counters) (l : List Service) (st : Status)
    (hnd : (l.map Service.ID).Nodup) (hdis : ∀ k ∈ l.map Service.ID, k ∉ st.info.keys) :
    (l.foldl (addService c) st).info =
      st.info ++ l.map (fun s => (s.ID, serviceEntry c s)) := by
  induction l generalizing st with
  | nil => simp
  | cons s r ih =>
    simp only [List.map_cons, List.nodup_cons] at hnd
    have hs : s.ID ∉ st.info.keys := hdis s.ID (by simp)
    have hinfo : (addService c st s).info = st.info ++ [(s.ID, serviceEntry c s)] := by
      rw [addService_info, GoMap.set_of_not_mem _ _ _ hs]
    rw [List.foldl_cons, ih _ hnd.2, hinfo]
    · simp
    · intro k hk
      rw [hinfo]
      have hk' : k ∉ st.info.keys := hdis k (by simp [List.mem_of_mem_tail, hk])
      have hne : k ≠ s.ID := by
        rintro rfl
        exact hnd.1 hk
      simp only [GoMap.keys, List.map_append, List.map_cons, List.map_nil, List.mem_append,
        List.mem_singleton, not_or]
      exact ⟨hk', hne⟩

theorem get?_map_of_nodup {V : Type} (l : List Service) (f : Service → V) (s : Service)
    (hs : s ∈ l) (hnd : (l.map Service.ID).Nodup) :
    GoMap.get? (l.map (fun x => (x.ID, f x))) s.ID = some (f s) := by
  induction l with
  | nil => simp at hs
  | cons a r ih =>
    simp only [List.map_cons, List.nodup_cons] at hnd
    rcases List.mem_cons.mp hs with rfl | hmem
    · simp [GoMap.get?]
    · have hne : ¬ a.ID = s.ID := by
        intro e
        exact hnd.1 (e ▸ List.mem_map_of_mem Service.ID hmem)
      simp only [List.map_cons, GoMap.get?, hne, if_false]
      exact ih hmem hnd.2

/-- A fold that adds `f x` modulo `2^64` to a quantity on the items that satisfy `q`
leaves the quantity increased by the sum of `f` over these items, modulo `2^64`. -/
theorem fold_sum_mod {σ α : Type} (g : σ → Nat) (q : α → Bool) (f : α → Nat)
    (step : σ → α → σ)
    (hstep : ∀ st x, g (step st x) = if q x = true then (g st + f x) % U64 else g st)
    (l : List α) (st : σ) (hst : g st < U64) :
    g (l.foldl step st) = (g st + ((l.filter q).map f).sum) % U64 := by
  induction l generalizing st with
  | nil => simp [Nat.mod_eq_of_lt hst]
  | cons x r ih =>
    have hlt : g (step st x) < U64 := by
      rw [hstep]
      split
      · exact Nat.mod_lt _ (by decide)
      · exact hst
    rw [List.foldl_cons, ih _ hlt, hstep]
    by_cases hq : q x = true
    · simp only [hq, if_true, List.filter_cons_of_pos, List.map_cons, List.sum_cons]
      rw [Nat.mod_add_mod, Nat.add_assoc]
    · simp [hq]

/-- The map returned by `GetServicesWaitStatus` for pairwise distinct service IDs: one
pair per service, holding the entry of that service. -/
theorem status_info (services : List Service) (nodes : List Node) (tasks : List Task)
    (hnd : (services.map Service.ID).Nodup) :
    (GetServicesWaitStatus services nodes tasks).1 =
      services.map (fun s => (s.ID, serviceEntry (countTasks (activeNodes nodes) tasks) s)) := by
  simp only [GetServicesWaitStatus]
  rw [foldl_addService_info _ _ _ hnd (by simp [GoMap.empty, GoMap.keys])]
  simp [GoMap.empty]

theorem status_get? (services : List Service) (nodes : List Node) (tasks : List Task)
    (hnd : (services.map Service.ID).Nodup) (s : Service) (hs : s ∈ services) :
    (GetServicesWaitStatus services nodes tasks).1.get? s.ID =
      some (serviceEntry (countTasks (activeNodes nodes) tasks) s) := by
  rw [status_info services nodes tasks hnd]
  exact get?_map_of_nodup services _ s hs hnd

theorem status_summary_expected (services : List Service) (nodes : List Node)
    (tasks : List Task) :
    (GetServicesWaitStatus services nodes tasks).2.Expected =
      (((services.filter Service.classified).map
        (fun s => (serviceEntry (countTasks (activeNodes nodes) tasks) s).Expected)).sum) % U64 := by
  have h := fold_sum_mod (fun st : Status => st.summary.Expected) Service.classified
    (fun s => (serviceEntry (countTasks (activeNodes nodes) tasks) s).Expected)
    (addService (countTasks (activeNodes nodes) tasks))
    (by
      intro st x
      show (addService _ st x).summary.Expected = _
      rw [addService_summary]
      split <;> rfl)
    services { info := GoMap.empty, summary := WaitInfoSummary.zero }
    (by simp [WaitInfoSummary.zero, U64])
  simpa [GetServicesWaitStatus, WaitInfoSummary.zero] using h

theorem status_summary_running (services : List Service) (nodes : List Node)
    (tasks : List Task) :
    (GetServicesWaitStatus services nodes tasks).2.Running =
      (((services.filter Service.classified).map
        (fun s => (serviceEntry (countTasks (activeNodes nodes) tasks) s).Running)).sum) % U64 := by
  have h := fold_sum_mod (fun st : Status => st.summary.Running) Service.classified
    (fun s => (serviceEntry (countTasks (activeNodes nodes) tasks) s).Running)
    (addService (countTasks (activeNodes nodes) tasks))
    (by
      intro st x
      show (addService _ st x).summary.Running = _
      rw [addService_summary]
      split <;> rfl)
    services { info := GoMap.empty, summary := WaitInfoSummary.zero }
    (by simp [WaitInfoSummary.zero, U64])
  simpa [GetServicesWaitStatus, WaitInfoSummary.zero] using h

theorem nodeActive_iff (nodes : List Node) (id : String) :
    nodeActive nodes id = true ↔ ∃ n ∈ nodes, n.ID = id ∧ n.Status.State ≠ NodeStateDown := by
  simp [nodeActive, List.any_eq_true]

theorem runningCount_eq (nodes : List Node) (tasks : List Task) (id : String) :
    runningCount nodes tasks id =
      tasks.countP (fun t => decide (t.ServiceID = id ∧ t.Status.State = TaskStateRunning ∧
        ∃ n ∈ nodes, n.ID = t.NodeID ∧ n.Status.State ≠ NodeStateDown)) := by
  unfold runningCount
  congr 1
  funext t
  simp only [nodeActive_iff]

theorem runningCount_remove (nodes : List Node) (pre post : List Task) (t : Task) (id : String)
    (h : nodeActive nodes t.NodeID = false) :
    runningCount nodes (pre ++ t :: post) id = runningCount nodes (pre ++ post) id := by
  simp [runningCount, List.countP_append, List.countP_cons, h]

theorem serviceEntry_running (c : Counters) (s : Service) :
    (serviceEntry c s).Running = if s.classified = true then c.running.getD s.ID 0 else 0 := by
  cases hd : s.replicas? with
  | some d =>
    have hc : s.classified = true := by simp [Service.classified, hd]
    cases hpl : s.Spec.TaskTemplate.Placement with
    | none => simp [serviceEntry_replicated c s d hd (by simp [hpl]), hc]
    | some p =>
      by_cases hm : 0 < p.MaxReplicas
      · simp [serviceEntry_replicated_max c s d p hd hpl hm, hc]
      · have h0 : p.MaxReplicas = 0 := by omega
        have hp : ∀ q, s.Spec.TaskTemplate.Placement = some q → q.MaxReplicas = 0 := by
          intro q hq
          rw [hpl] at hq
          cases hq
          exact h0
        simp [serviceEntry_replicated c s d hd hp, hc]
  | none =>
    cases hg : s.Spec.Mode.Global with
    | none =>
      have hc : s.classified = false := by simp [Service.classified, hd, hg]
      simp [serviceEntry_unclassified c s hd hg, hc, WaitInfo.zero]
    | some g =>
      have hc : s.classified = true := by simp [Service.classified, hd, hg]
      simp [serviceEntry_global c s g hd hg, hc]

theorem get?_map_map {V W : Type} (l : List Service) (f : Service → V) (g : V → W)
    (k : String) :
    (GoMap.get? (l.map (fun x => (x.ID, f x))) k).map g =
      GoMap.get? (l.map (fun x => (x.ID, g (f x)))) k := by
  induction l with
  | nil => simp [GoMap.get?]
  | cons a r ih =>
    by_cases h : a.ID = k
    · simp [GoMap.get?, h]
    · simp only [List.map_cons, GoMap.get?, h, if_false]
      exact ih

/-- The `Running` fields of the returned map, for pairwise distinct service IDs. -/
theorem status_running_fields (services : List Service) (nodes : List Node)
    (tasks : List Task) (hnd : (services.map Service.ID).Nodup) (k : String) :
    ((GetServicesWaitStatus services nodes tasks).1.get? k).map WaitInfo.Running =
      GoMap.get? (services.map (fun s => (s.ID,
        if s.classified = true then runningCount nodes tasks s.ID % U64 else 0))) k := by
  rw [status_info services nodes tasks hnd, get?_map_map]
  congr 2
  funext s
  rw [serviceEntry_running, countTasks_running]

theorem status_summary_running_count (services : List Service) (nodes : List Node)
    (tasks : List Task) :
    (GetServicesWaitStatus services nodes tasks).2.Running =
      (((services.filter Service.classified).map
        (fun s => runningCount nodes tasks s.ID % U64)).sum) % U64 := by
  rw [status_summary_running]
  congr 2
  apply List.map_congr_left
  intro s hs
  have hc : s.classified = true := (List.mem_filter.mp hs).2
  rw [serviceEntry_running, countTasks_running]
  simp [hc]

theorem classified_iff (s : Service) :
    s.classified = true ↔
      (∃ r d, s.Spec.Mode.Replicated = some r ∧ r.Replicas = some d) ∨
        ∃ g, s.Spec.Mode.Global = some g := by
  unfold Service.classified Service.replicas?
  cases hr : s.Spec.Mode.Replicated with
  | none =>
    cases hg : s.Spec.Mode.Global with
    | none => simp
    | some g => simpa using ⟨g, trivial⟩
  | some r =>
    cases hd : r.Replicas with
    | none =>
      cases hg : s.Spec.Mode.Global with
      | none => simp [hd]
      | some g => simpa [hd] using ⟨g, trivial⟩
    | some d => simp [hd]

theorem replicas?_eq_some (s : Service) (r : ReplicatedService) (d : Nat)
    (hr : s.Spec.Mode.Replicated = some r) (hd : r.Replicas = some d) :
    s.replicas? = some d := by
  simp [Service.replicas?, hr, hd]

theorem replicas?_eq_none (s : Service)
    (hr : ∀ r, s.Spec.Mode.Replicated = some r → r.Replicas = none) :
    s.replicas? = none := by
  unfold Service.replicas?
  cases h : s.Spec.Mode.Replicated with
  | none => rfl
  | some r => simpa using hr r h

theorem running_entry_eq (nodes : List Node) (tasks : List Task)
    (s : Service) (hlen : tasks.length < U64) :
    (countTasks (activeNodes nodes) tasks).running.getD s.ID 0 =
      tasks.countP (fun t => decide (t.ServiceID = s.ID ∧ t.Status.State = TaskStateRunning ∧
        ∃ n ∈ nodes, n.ID = t.NodeID ∧ n.Status.State ≠ NodeStateDown)) := by
  rw [countTasks_running, ← runningCount_eq]
  exact Nat.mod_eq_of_lt (lt_of_le_of_lt (runningCount_le nodes tasks s.ID) hlen)

theorem noShutdown_entry_eq (active : GoMap Unit) (tasks : List Task)
    (s : Service) (hlen : tasks.length < U64) :
    (countTasks active tasks).tasksNoShutdown.getD s.ID 0 =
      tasks.countP (fun t => decide (t.ServiceID = s.ID ∧ t.DesiredState ≠ TaskStateShutdown)) := by
  rw [countTasks_noShutdown]
  exact Nat.mod_eq_of_lt (lt_of_le_of_lt (noShutdownCount_le tasks s.ID) hlen)

/-! ## The aggregator: the claims -/

/-- C1. Running count: with pairwise distinct service IDs and a task list of
representable length, the entry of a classified service `s` has as `Running` the number
of tasks of `s` that are observed running and whose node is listed in a state other than
`down`. A task whose node is unlisted or listed only as `down` contributes to no
`Running` field and not to `summary.Running`: removing it from the task list changes
neither. -/
theorem C1_running_count (services : List Service) (nodes : List Node) (tasks : List Task)
    (s : Service) (hnd : (services.map Service.ID).Nodup) (hs : s ∈ services)
    (hc : (∃ r d, s.Spec.Mode.Replicated = some r ∧ r.Replicas = some d) ∨
      ∃ g, s.Spec.Mode.Global = some g)
    (hlen : tasks.length < U64) :
    (∃ w, (GetServicesWaitStatus services nodes tasks).1.get? s.ID = some w ∧
      w.Running =
        tasks.countP (fun t => decide (t.ServiceID = s.ID ∧
          t.Status.State = TaskStateRunning ∧
          ∃ n ∈ nodes, n.ID = t.NodeID ∧ n.Status.State ≠ NodeStateDown))) ∧
    (∀ pre post t, tasks = pre ++ t :: post →
      (¬ ∃ n ∈ nodes, n.ID = t.NodeID ∧ n.Status.State ≠ NodeStateDown) →
      (∀ k, ((GetServicesWaitStatus services nodes tasks).1.get? k).map WaitInfo.Running =
        ((GetServicesWaitStatus services nodes (pre ++ post)).1.get? k).map WaitInfo.Running) ∧
      (GetServicesWaitStatus services nodes tasks).2.Running =
        (GetServicesWaitStatus services nodes (pre ++ post)).2.Running) := by
  have hcl : s.classified = true := (classified_iff s).mpr hc
  refine ⟨⟨_, status_get? services nodes tasks hnd s hs, ?_⟩, ?_⟩
  · rw [serviceEntry_running, if_pos hcl]
    exact running_entry_eq nodes tasks s hlen
  · intro pre post t ht hdead
    have hna : nodeActive nodes t.NodeID = false := by
      cases h : nodeActive nodes t.NodeID with
      | false => rfl
      | true => exact absurd ((nodeActive_iff nodes t.NodeID).mp h) hdead
    subst ht
    refine ⟨fun k => ?_, ?_⟩
    · rw [status_running_fields _ _ _ hnd, status_running_fields _ _ _ hnd]
      simp only [runningCount_remove nodes pre post t _ hna]
    · rw [status_summary_running_count, status_summary_running_count]
      simp only [runningCount_remove nodes pre post t _ hna]

/-- Witness of C1: of five tasks of `web`, the two running on nodes that are up are
counted; the one on the node that is down, the one on an unlisted node and the one
that is starting are not. -/
theorem C1_running_count_witness :
    ∃ w, (GetServicesWaitStatus [sampleReplicated "web" (some 3) none] sampleNodes
        sampleWebTasks).1.get? "web" = some w ∧ w.Running = 2 := by
  obtain ⟨w, hw, hr⟩ := (C1_running_count [sampleReplicated "web" (some 3) none] sampleNodes
    sampleWebTasks (sampleReplicated "web" (some 3) none) (by decide) (by decide)
    (Or.inl ⟨_, _, rfl, rfl⟩) (by decide)).1
  exact ⟨w, hw, hr.trans (by decide)⟩

/-- C2. Global mode: with pairwise distinct service IDs and a task list of representable
length, a service in `Global` mode that is not replicated with a replica count has the
mode `global`, as `Expected` the number of its tasks whose desired state is not
`shutdown`, as `Running` its running count, and as `Replicas` the decimal string
`Running/Expected`. `Expected` is the same for every node list, and it is 0 when the
service has no task. -/
theorem C2_global_mode (services : List Service) (nodes : List Node) (tasks : List Task)
    (s : Service) (g : GlobalService)
    (hnd : (services.map Service.ID).Nodup) (hs : s ∈ services)
    (hr : ∀ r, s.Spec.Mode.Replicated = some r → r.Replicas = none)
    (hg : s.Spec.Mode.Global = some g) (hlen : tasks.length < U64) :
    ∃ w, (GetServicesWaitStatus services nodes tasks).1.get? s.ID = some w ∧
      w.Mode = "global" ∧
      w.Expected = tasks.countP (fun t => decide (t.ServiceID = s.ID ∧
        t.DesiredState ≠ TaskStateShutdown)) ∧
      w.Running = tasks.countP (fun t => decide (t.ServiceID = s.ID ∧
        t.Status.State = TaskStateRunning ∧
        ∃ n ∈ nodes, n.ID = t.NodeID ∧ n.Status.State ≠ NodeStateDown)) ∧
      w.Replicas = toString w.Running ++ "/" ++ toString w.Expected ∧
      (∀ nodes', ∃ w', (GetServicesWaitStatus services nodes' tasks).1.get? s.ID = some w' ∧
        w'.Expected = w.Expected) ∧
      ((∀ t ∈ tasks, t.ServiceID ≠ s.ID) → w.Expected = 0) := by
  have hd : s.replicas? = none := replicas?_eq_none s hr
  have hE : ∀ nodes' : List Node,
      (serviceEntry (countTasks (activeNodes nodes') tasks) s).Expected =
        tasks.countP (fun t => decide (t.ServiceID = s.ID ∧
          t.DesiredState ≠ TaskStateShutdown)) := by
    intro nodes'
    rw [serviceEntry_global _ s g hd hg]
    exact noShutdown_entry_eq _ tasks s hlen
  refine ⟨_, status_get? services nodes tasks hnd s hs, ?_, hE nodes, ?_, ?_, ?_, ?_⟩
  · rw [serviceEntry_global _ s g hd hg]
  · rw [serviceEntry_global _ s g hd hg]
    exact running_entry_eq nodes tasks s hlen
  · rw [serviceEntry_global _ s g hd hg]
    rfl
  · intro nodes'
    exact ⟨_, status_get? services nodes' tasks hnd s hs, by rw [hE nodes', hE nodes]⟩
  · intro hno
    rw [hE nodes, List.countP_eq_zero]
    intro t ht
    simp [hno t ht]

/-- Witness of C2: a global service with four tasks not to be shut down on nodes that
are up, three of them observed running, has `Expected = 4` and `Running = 3`. -/
theorem C2_global_mode_witness :
    ∃ w, (GetServicesWaitStatus [sampleGlobal "agent"] sampleNodes sampleAgentTasks).1.get?
        "agent" = some w ∧
      w.Mode = "global" ∧ w.Expected = 4 ∧ w.Running = 3 ∧ w.Replicas = "3/4" := by
  obtain ⟨w, hw, hm, he, hr, hs, _⟩ := C2_global_mode [sampleGlobal "agent"] sampleNodes
    sampleAgentTasks (sampleGlobal "agent") {} (by decide) (by decide)
    (by intro r h; cases h) rfl (by decide)
  have he' : w.Expected = 4 := he.trans (by decide)
  have hr' : w.Running = 3 := hr.trans (by decide)
  refine ⟨w, hw, hm, he', hr', ?_⟩
  rw [hs, he', hr']
  decide

/-- C3. Replicated mode without a max-per-node constraint: with pairwise distinct
service IDs and a task list of representable length, a service whose `Replicated` mode
carries the replica count `d` and whose placement is nil or has `MaxReplicas = 0` has
the mode `replicated`, `Expected = d`, as `Running` its running count, and as `Replicas`
the decimal string `Running/d`, with no suffix. -/
theorem C3_replicated_mode (services : List Service) (nodes : List Node) (tasks : List Task)
    (s : Service) (r : ReplicatedService) (d : Nat)
    (hnd : (services.map Service.ID).Nodup) (hs : s ∈ services)
    (hr : s.Spec.Mode.Replicated = some r) (hd : r.Replicas = some d)
    (hp : s.Spec.TaskTemplate.Placement = none ∨
      ∃ p, s.Spec.TaskTemplate.Placement = some p ∧ p.MaxReplicas = 0)
    (hlen : tasks.length < U64) :
    ∃ w, (GetServicesWaitStatus services nodes tasks).1.get? s.ID = some w ∧
      w.Mode = "replicated" ∧ w.Expected = d ∧
      w.Running = tasks.countP (fun t => decide (t.ServiceID = s.ID ∧
        t.Status.State = TaskStateRunning ∧
        ∃ n ∈ nodes, n.ID = t.NodeID ∧ n.Status.State ≠ NodeStateDown)) ∧
      w.Replicas = toString w.Running ++ "/" ++ toString d := by
  have hd' : s.replicas? = some d := replicas?_eq_some s r d hr hd
  have hp' : ∀ p, s.Spec.TaskTemplate.Placement = some p → p.MaxReplicas = 0 := by
    intro p hpl
    rcases hp with hnone | ⟨q, hq, h0⟩
    · rw [hnone] at hpl
      cases hpl
    · rw [hq] at hpl
      cases hpl
      exact h0
  refine ⟨_, status_get? services nodes tasks hnd s hs, ?_, ?_, ?_, ?_⟩
  · rw [serviceEntry_replicated _ s d hd' hp']
  · rw [serviceEntry_replicated _ s d hd' hp']
  · rw [serviceEntry_replicated _ s d hd' hp']
    exact running_entry_eq nodes tasks s hlen
  · rw [serviceEntry_replicated _ s d hd' hp']
    rfl

/-- Witness of C3: `d = 3`, `MaxReplicas = 0` and two tasks running on nodes that are up
give `Expected = 3`, `Running = 2` and `Replicas = "2/3"`. -/
theorem C3_replicated_mode_witness :
    ∃ w, (GetServicesWaitStatus [sampleReplicated "web" (some 3) (some { MaxReplicas := 0 })]
        sampleNodes sampleWebTasks).1.get? "web" = some w ∧
      w.Mode = "replicated" ∧ w.Expected = 3 ∧ w.Running = 2 ∧ w.Replicas = "2/3" := by
  obtain ⟨w, hw, hm, he, hr, hs⟩ := C3_replicated_mode
    [sampleReplicated "web" (some 3) (some { MaxReplicas := 0 })] sampleNodes sampleWebTasks
    (sampleReplicated "web" (some 3) (some { MaxReplicas := 0 })) { Replicas := some 3 } 3
    (by decide) (by decide) rfl rfl (Or.inr ⟨_, rfl, rfl⟩) (by decide)
  have hr' : w.Running = 2 := hr.trans (by decide)
  refine ⟨w, hw, hm, he, hr', ?_⟩
  rw [hs, hr']
  decide

/-- C4. Replicated mode with a max-per-node constraint: with pairwise distinct service
IDs and a task list of representable length, a service whose `Replicated` mode carries
the replica count `d` and whose placement has `MaxReplicas = m > 0` has the mode
`replicated`, `Expected = d`, as `Running` its running count, and as `Replicas` the
decimal string `Running/d (max m per node)`. -/
theorem C4_replicated_max_per_node (services : List Service) (nodes : List Node)
    (tasks : List Task) (s : Service) (r : ReplicatedService) (d : Nat) (p : Placement)
    (hnd : (services.map Service.ID).Nodup) (hs : s ∈ services)
    (hr : s.Spec.Mode.Replicated = some r) (hd : r.Replicas = some d)
    (hp : s.Spec.TaskTemplate.Placement = some p) (hm : 0 < p.MaxReplicas)
    (hlen : tasks.length < U64) :
    ∃ w, (GetServicesWaitStatus services nodes tasks).1.get? s.ID = some w ∧
      w.Mode = "replicated" ∧ w.Expected = d ∧
      w.Running = tasks.countP (fun t => decide (t.ServiceID = s.ID ∧
        t.Status.State = TaskStateRunning ∧
        ∃ n ∈ nodes, n.ID = t.NodeID ∧ n.Status.State ≠ NodeStateDown)) ∧
      w.Replicas = toString w.Running ++ "/" ++ toString d ++ " (max " ++
        toString p.MaxReplicas ++ " per node)" := by
  have hd' : s.replicas? = some d := replicas?_eq_some s r d hr hd
  refine ⟨_, status_get? services nodes tasks hnd s hs, ?_, ?_, ?_, ?_⟩
  · rw [serviceEntry_replicated_max _ s d p hd' hp hm]
  · rw [serviceEntry_replicated_max _ s d p hd' hp hm]
  · rw [serviceEntry_replicated_max _ s d p hd' hp hm]
    exact running_entry_eq nodes tasks s hlen
  · rw [serviceEntry_replicated_max _ s d p hd' hp hm]
    rfl

/-- Witness of C4: `d = 3`, `m = 2` and two tasks running on nodes that are up give
`Replicas = "2/3 (max 2 per node)"`. -/
theorem C4_replicated_max_per_node_witness :
    ∃ w, (GetServicesWaitStatus [sampleReplicated "web" (some 3) (some { MaxReplicas := 2 })]
        sampleNodes sampleWebTasks).1.get? "web" = some w ∧
      w.Mode = "replicated" ∧ w.Expected = 3 ∧ w.Running = 2 ∧
      w.Replicas = "2/3 (max 2 per node)" := by
  obtain ⟨w, hw, hm, he, hr, hs⟩ := C4_replicated_max_per_node
    [sampleReplicated "web" (some 3) (some { MaxReplicas := 2 })] sampleNodes sampleWebTasks
    (sampleReplicated "web" (some 3) (some { MaxReplicas := 2 })) { Replicas := some 3 } 3
    { MaxReplicas := 2 } (by decide) (by decide) rfl rfl rfl (by decide) (by decide)
  have hr' : w.Running = 2 := hr.trans (by decide)
  refine ⟨w, hw, hm, he, hr', ?_⟩
  rw [hs, hr']
  decide

theorem sum_map_filter_of_zero {α : Type} (l : List α) (q : α → Bool) (f : α → Nat)
    (h : ∀ x, q x = false → f x = 0) :
    (l.map f).sum = ((l.filter q).map f).sum := by
  induction l with
  | nil => rfl
  | cons a r ih =>
    cases hq : q a with
    | true => simp [List.filter_cons, hq, ih]
    | false => simp [List.filter_cons, hq, ih, h a hq]

/-- C5. An entry for every watched service: the keys of the returned map are exactly the
IDs of the service list; and, the IDs being pairwise distinct, a service that is neither
replicated with a replica count nor global has the zero-valued entry, whatever its
tasks. -/
theorem C5_entry_for_every_service (services : List Service) (nodes : List Node)
    (tasks : List Task) :
    (∀ k, k ∈ (GetServicesWaitStatus services nodes tasks).1.keys ↔
      k ∈ services.map Service.ID) ∧
    (∀ k, ((GetServicesWaitStatus services nodes tasks).1.get? k).isSome = true ↔
      k ∈ services.map Service.ID) ∧
    ((services.map Service.ID).Nodup → ∀ s ∈ services,
      (∀ r, s.Spec.Mode.Replicated = some r → r.Replicas = none) →
      s.Spec.Mode.Global = none →
      (GetServicesWaitStatus services nodes tasks).1.get? s.ID =
        some { Mode := "", Replicas := "", Expected := 0, Running := 0 }) := by
  have hkeys : ∀ k, k ∈ (GetServicesWaitStatus services nodes tasks).1.keys ↔
      k ∈ services.map Service.ID := by
    intro k
    simp only [GetServicesWaitStatus]
    rw [foldl_addService_keys]
    simp [GoMap.empty, GoMap.keys]
  refine ⟨hkeys, fun k => ?_, ?_⟩
  · rw [GoMap.get?_isSome_iff]
    exact hkeys k
  · intro hnd s hs hr hg
    rw [status_get? services nodes tasks hnd s hs,
      serviceEntry_unclassified _ s (replicas?_eq_none s hr) hg]
    rfl

/-- Witness of C5: a service with neither mode set has the zero-valued entry although
two of its tasks are running on nodes that are up. -/
theorem C5_entry_for_every_service_witness :
    (GetServicesWaitStatus [sampleUnset "web"] sampleNodes sampleWebTasks).1.get? "web" =
        some { Mode := "", Replicas := "", Expected := 0, Running := 0 } ∧
      sampleWebTasks.countP (fun t => decide (t.ServiceID = "web" ∧
        t.Status.State = TaskStateRunning ∧
        ∃ n ∈ sampleNodes, n.ID = t.NodeID ∧ n.Status.State ≠ NodeStateDown)) = 2 :=
  ⟨(C5_entry_for_every_service [sampleUnset "web"] sampleNodes sampleWebTasks).2.2
    (by decide) (sampleUnset "web") (by decide) (by intro r h; cases h) rfl, by decide⟩

/-- C6. Summary: with pairwise distinct service IDs, `summary.Expected` is the sum of
`Expected` and `summary.Running` the sum of `Running` over the entries of the returned
map, modulo `2^64`; and both are already the sums over the entries of the classified
services alone, so that the other services contribute nothing. -/
theorem C6_summary_sums (services : List Service) (nodes : List Node) (tasks : List Task)
    (hnd : (services.map Service.ID).Nodup) :
    (GetServicesWaitStatus services nodes tasks).2.Expected =
      ((GetServicesWaitStatus services nodes tasks).1.map (fun e => e.2.Expected)).sum % U64 ∧
    (GetServicesWaitStatus services nodes tasks).2.Running =
      ((GetServicesWaitStatus services nodes tasks).1.map (fun e => e.2.Running)).sum % U64 ∧
    (GetServicesWaitStatus services nodes tasks).2.Expected =
      ((services.filter Service.classified).map (fun s =>
        ((GetServicesWaitStatus services nodes tasks).1.getD s.ID WaitInfo.zero).Expected)).sum
        % U64 ∧
    (GetServicesWaitStatus services nodes tasks).2.Running =
      ((services.filter Service.classified).map (fun s =>
        ((GetServicesWaitStatus services nodes tasks).1.getD s.ID WaitInfo.zero).Running)).sum
        % U64 := by
  have hentry : ∀ s ∈ services.filter Service.classified,
      (GetServicesWaitStatus services nodes tasks).1.getD s.ID WaitInfo.zero =
        serviceEntry (countTasks (activeNodes nodes) tasks) s := by
    intro s hs
    simp [GoMap.getD, status_get? services nodes tasks hnd s (List.mem_filter.mp hs).1]
  refine ⟨?_, ?_, ?_, ?_⟩
  · rw [status_summary_expected, status_info services nodes tasks hnd, List.map_map]
    congr 1
    exact (sum_map_filter_of_zero services Service.classified _ (fun s h => by
      simp [serviceEntry_of_not_classified _ s h, WaitInfo.zero])).symm
  · rw [status_summary_running, status_info services nodes tasks hnd, List.map_map]
    congr 1
    exact (sum_map_filter_of_zero services Service.classified _ (fun s h => by
      simp [serviceEntry_of_not_classified _ s h, WaitInfo.zero])).symm
  · rw [status_summary_expected]
    congr 2
    exact List.map_congr_left (fun s hs => by rw [hentry s hs])
  · rw [status_summary_running]
    congr 2
    exact List.map_congr_left (fun s hs => by rw [hentry s hs])

/-- Witness of C6: a replicated service (2 of 3 running), a global one (3 of 4) and an
unclassified one with running tasks give the summary `Expected = 7`, `Running = 5`. -/
theorem C6_summary_sums_witness :
    (GetServicesWaitStatus
        [sampleReplicated "web" (some 3) none, sampleGlobal "agent", sampleUnset "db"]
        sampleNodes
        (sampleWebTasks ++ sampleAgentTasks ++
          [sampleTask "db" "n1" "running" "running"])).2.Expected = 7 ∧
    (GetServicesWaitStatus
        [sampleReplicated "web" (some 3) none, sampleGlobal "agent", sampleUnset "db"]
        sampleNodes
        (sampleWebTasks ++ sampleAgentTasks ++
          [sampleTask "db" "n1" "running" "running"])).2.Running = 5 := by
  have h := C6_summary_sums
    [sampleReplicated "web" (some 3) none, sampleGlobal "agent", sampleUnset "db"]
    sampleNodes
    (sampleWebTasks ++ sampleAgentTasks ++ [sampleTask "db" "n1" "running" "running"])
    (by decide)
  exact ⟨h.2.2.1.trans (by decide), h.2.2.2.trans (by decide)⟩

/-! ## Lemmas on the poll loop -/

theorem sortServices_length (less : String → String → Bool) (l : List Service) :
    (sortServices less l).length = l.length :=
  List.length_insertionSort _ l

theorem afterTest_of_lag (summary : Option WaitInfoSummary) (s : WaitInfoSummary)
    (h : summary = some s) (hlag : ¬ s.Expected ≤ s.Running) :
    afterTest summary = LoopState.Running := by
  simp [afterTest, completionTest, h, hlag]

theorem afterTest_of_done (summary : Option WaitInfoSummary) (s : WaitInfoSummary)
    (h : summary = some s) (hdone : s.Expected ≤ s.Running) :
    afterTest summary = LoopState.Completed := by
  simp [afterTest, completionTest, h, hdone]

theorem step_of_stopped (api : Nat → APIClient) (services : List Service) (l : Loop)
    (e : Event) (h : l.state ≠ LoopState.Running) : step api services l e = l := by
  unfold step
  cases hs : l.state with
  | Running => exact absurd hs h
  | Completed => rfl
  | TimedOut => rfl
  | Panicked => rfl

theorem foldl_step_of_stopped (api : Nat → APIClient) (services : List Service)
    (events : List Event) (l : Loop) (h : l.state ≠ LoopState.Running) :
    events.foldl (step api services) l = l := by
  induction events with
  | nil => rfl
  | cons e r ih => rw [List.foldl_cons, step_of_stopped api services l e h, ih]

theorem pollLoop_append (api : Nat → APIClient) (services : List Service)
    (a b : List Event) :
    pollLoop api services (a ++ b) = b.foldl (step api services) (pollLoop api services a) := by
  simp [pollLoop, List.foldl_append]

/-- As long as every cycle leaves the goroutine polling, `j` ticks lead to `j + 1` cycles,
whose snapshots are emitted in cycle order. -/
theorem pollLoop_ticks (api : Nat → APIClient) (services : List Service) (j : Nat)
    (h : ∀ i ≤ j, afterTest (collectServiceStatus (api i) services).summary =
      LoopState.Running) :
    pollLoop api services (List.replicate j Event.tick) =
      { state := LoopState.Running, cycles := j + 1
        emitted := (List.range (j + 1)).map
          (fun i => (collectServiceStatus (api i) services).info)
        handled := j, cancelled := false } := by
  induction j with
  | zero =>
    have h0 := h 0 (Nat.le_refl 0)
    simp [pollLoop, cycle0, h0, List.range_succ]
  | succ j ih =>
    have hj := ih (fun i hi => h i (Nat.le_succ_of_le hi))
    have hlast := h (j + 1) (Nat.le_refl _)
    rw [List.replicate_succ', pollLoop_append, hj]
    simp [step, hlast, List.range_succ (j + 1)]

theorem renderAll_of_ok (render : Option (GoMap WaitInfo) → Option Error)
    (l : List (Option (GoMap WaitInfo))) (h : ∀ info, render info = none) :
    renderAll render l = (l, none) := by
  induction l with
  | nil => rfl
  | cons a r ih => simp [renderAll, h a, ih]

/-! ## The poll loop: the claims -/

/-- C7. Completion: for a non-empty watch list, a renderer and an output stream that do
not fail, and a run whose cycles `0 .. n-1` (cycle 0 and `n - 1` ticks) fetch summaries
that fail the test `Expected <= Running` and whose cycle `n` (cycle 0 or the `n`-th tick)
fetches one that passes it, the goroutine is polling before cycle `n` and `Completed`
after it, whatever events follow: `n + 1` snapshots are emitted in cycle order, `n` events
are handled, no further cycle is performed, and `runList` writes the notice and returns
no error. With `n = 0` exactly one snapshot is emitted and no event is handled. -/
theorem C7_completion (env : Env) (listed services : List Service) (n : Nat)
    (rest : List Event)
    (hlist : env.ServiceList = .ok listed) (hne : listed ≠ [])
    (hsv : services = sortServices env.NaturalLess listed)
    (hev : env.events = List.replicate n Event.tick ++ rest)
    (hlag : ∀ i < n, ∃ s, (collectServiceStatus (env.api i) services).summary = some s ∧
      ¬ s.Expected ≤ s.Running)
    (hdone : ∃ s, (collectServiceStatus (env.api n) services).summary = some s ∧
      s.Expected ≤ s.Running)
    (hrender : ∀ info, env.WaitListFormatWrite services info = none)
    (hwrite : env.Write "\nAll services booted up\n" = none) :
    runList env =
      { outcome := Outcome.returned none
        loop := some
          { state := LoopState.Completed, cycles := n + 1
            emitted := (List.range (n + 1)).map
              (fun i => (collectServiceStatus (env.api i) services).info)
            handled := n, cancelled := false }
        rendered := (List.range (n + 1)).map
          (fun i => (collectServiceStatus (env.api i) services).info)
        written := ["\nAll services booted up\n"] } ∧
    (∀ j < n, (pollLoop env.api services (env.events.take j)).state = LoopState.Running) := by
  have hrun : ∀ j < n, pollLoop env.api services (List.replicate j Event.tick) =
      { state := LoopState.Running, cycles := j + 1
        emitted := (List.range (j + 1)).map
          (fun i => (collectServiceStatus (env.api i) services).info)
        handled := j, cancelled := false } := by
    intro j hj
    apply pollLoop_ticks
    intro i hi
    obtain ⟨s, hs, hl⟩ := hlag i (by omega)
    exact afterTest_of_lag _ s hs hl
  obtain ⟨sd, hsd, hd⟩ := hdone
  have hdoneT := afterTest_of_done _ sd hsd hd
  have hloop : pollLoop env.api services env.events =
      { state := LoopState.Completed, cycles := n + 1
        emitted := (List.range (n + 1)).map
          (fun i => (collectServiceStatus (env.api i) services).info)
        handled := n, cancelled := false } := by
    rw [hev, pollLoop_append]
    have hn : pollLoop env.api services (List.replicate n Event.tick) =
        { state := LoopState.Completed, cycles := n + 1
          emitted := (List.range (n + 1)).map
            (fun i => (collectServiceStatus (env.api i) services).info)
          handled := n, cancelled := false } := by
      cases n with
      | zero => simp [pollLoop, cycle0, hdoneT, List.range_succ]
      | succ m =>
        rw [List.replicate_succ', pollLoop_append, hrun m (Nat.lt_succ_self m)]
        simp [step, hdoneT, List.range_succ (m + 1)]
    rw [hn]
    exact foldl_step_of_stopped _ _ _ _ (by simp)
  have hlen : (sortServices env.NaturalLess listed).length > 0 := by
    rw [sortServices_length]
    exact List.length_pos.mpr hne
  refine ⟨?_, ?_⟩
  · subst hsv
    unfold runList
    simp only [hlist, hlen, if_true, hloop, renderAll_of_ok _ _ hrender, hwrite]
  · intro j hj
    have htake : env.events.take j = List.replicate j Event.tick := by
      rw [hev, List.take_append_of_le_length (by simp; omega), List.take_replicate]
      congr 1
      omega
    rw [htake, hrun j hj]

/-- Witness of C7: `web` wants three replicas; cycle 0 sees two running, the cycle of the
first tick sees three. The run completes on that tick with two snapshots, whatever
follows. -/
theorem C7_completion_witness :
    (runList (sampleEnv [sampleWeb]
        (fun i => if i = 0 then sampleClient sampleWebTasks else sampleClient sampleWebTasksUp)
        [Event.tick, Event.tick, Event.timeout])).outcome = Outcome.returned none ∧
    ((runList (sampleEnv [sampleWeb]
        (fun i => if i = 0 then sampleClient sampleWebTasks else sampleClient sampleWebTasksUp)
        [Event.tick, Event.tick, Event.timeout])).loop.map Loop.handled) = some 1 ∧
    (runList (sampleEnv [sampleWeb]
        (fun i => if i = 0 then sampleClient sampleWebTasks else sampleClient sampleWebTasksUp)
        [Event.tick, Event.tick, Event.timeout])).rendered.length = 2 := by
  have h := (C7_completion (sampleEnv [sampleWeb]
      (fun i => if i = 0 then sampleClient sampleWebTasks else sampleClient sampleWebTasksUp)
      [Event.tick, Event.tick, Event.timeout])
    [sampleWeb] [sampleWeb] 1 [Event.tick, Event.timeout] rfl (by decide) rfl rfl
    (by
      intro i hi
      have hi0 : i = 0 := by omega
      subst hi0
      exact ⟨_, rfl, by decide⟩)
    ⟨_, rfl, by decide⟩ (fun _ => rfl) rfl).1
  rw [h]
  exact ⟨rfl, rfl, rfl⟩

/-- C8. Timeout: for a non-empty watch list, a renderer that does not fail, and a run in
which cycle 0 and the cycles of the `k` ticks handled before the timeout event all fetch
summaries that fail the test `Expected <= Running`, the goroutine performs one more cycle
on the timeout and ends in `TimedOut`: the sink receives exactly `k + 2` snapshots in
cycle order, and `runList` returns the error
`timeout reached while waiting for the services`. -/
theorem C8_timeout (env : Env) (listed services : List Service) (k : Nat)
    (rest : List Event)
    (hlist : env.ServiceList = .ok listed) (hne : listed ≠ [])
    (hsv : services = sortServices env.NaturalLess listed)
    (hev : env.events = List.replicate k Event.tick ++ Event.timeout :: rest)
    (hlag : ∀ i ≤ k, ∃ s, (collectServiceStatus (env.api i) services).summary = some s ∧
      ¬ s.Expected ≤ s.Running)
    (hrender : ∀ info, env.WaitListFormatWrite services info = none) :
    runList env =
      { outcome := Outcome.returned
          (some { msg := "timeout reached while waiting for the services" })
        loop := some
          { state := LoopState.TimedOut, cycles := k + 2
            emitted := (List.range (k + 2)).map
              (fun i => (collectServiceStatus (env.api i) services).info)
            handled := k + 1, cancelled := true }
        rendered := (List.range (k + 2)).map
          (fun i => (collectServiceStatus (env.api i) services).info)
        written := ["\n"] } ∧
    (runList env).rendered.length = k + 2 := by
  have hrun : pollLoop env.api services (List.replicate k Event.tick) =
      { state := LoopState.Running, cycles := k + 1
        emitted := (List.range (k + 1)).map
          (fun i => (collectServiceStatus (env.api i) services).info)
        handled := k, cancelled := false } := by
    apply pollLoop_ticks
    intro i hi
    obtain ⟨s, hs, hl⟩ := hlag i hi
    exact afterTest_of_lag _ s hs hl
  have hloop : pollLoop env.api services env.events =
      { state := LoopState.TimedOut, cycles := k + 2
        emitted := (List.range (k + 2)).map
          (fun i => (collectServiceStatus (env.api i) services).info)
        handled := k + 1, cancelled := true } := by
    rw [hev, pollLoop_append, hrun, List.foldl_cons]
    have hstep : step env.api services
        { state := LoopState.Running, cycles := k + 1
          emitted := (List.range (k + 1)).map
            (fun i => (collectServiceStatus (env.api i) services).info)
          handled := k, cancelled := false } Event.timeout =
        { state := LoopState.TimedOut, cycles := k + 2
          emitted := (List.range (k + 2)).map
            (fun i => (collectServiceStatus (env.api i) services).info)
          handled := k + 1, cancelled := true } := by
      simp [step, List.range_succ (k + 1)]
    rw [hstep]
    exact foldl_step_of_stopped _ _ _ _ (by simp)
  have hlen : (sortServices env.NaturalLess listed).length > 0 := by
    rw [sortServices_length]
    exact List.length_pos.mpr hne
  have hres : runList env =
      { outcome := Outcome.returned
          (some { msg := "timeout reached while waiting for the services" })
        loop := some
          { state := LoopState.TimedOut, cycles := k + 2
            emitted := (List.range (k + 2)).map
              (fun i => (collectServiceStatus (env.api i) services).info)
            handled := k + 1, cancelled := true }
        rendered := (List.range (k + 2)).map
          (fun i => (collectServiceStatus (env.api i) services).info)
        written := ["\n"] } := by
    subst hsv
    unfold runList
    simp only [hlist, hlen, if_true, hloop, renderAll_of_ok _ _ hrender, timeoutError]
  refine ⟨hres, ?_⟩
  rw [hres]
  simp

/-- Witness of C8: `web` never has its three replicas and one tick is handled before the
timeout (timeout = 2 x interval): exactly three snapshots are rendered and the run ends
in `TimedOut` with the timeout error. -/
theorem C8_timeout_witness :
    (runList (sampleEnv [sampleWeb] (fun _ => sampleClient sampleWebTasks)
        [Event.tick, Event.timeout, Event.tick])).outcome =
      Outcome.returned (some { msg := "timeout reached while waiting for the services" }) ∧
    ((runList (sampleEnv [sampleWeb] (fun _ => sampleClient sampleWebTasks)
        [Event.tick, Event.timeout, Event.tick])).loop.map Loop.state) =
      some LoopState.TimedOut ∧
    (runList (sampleEnv [sampleWeb] (fun _ => sampleClient sampleWebTasks)
        [Event.tick, Event.timeout, Event.tick])).rendered.length = 3 := by
  have h := C8_timeout (sampleEnv [sampleWeb] (fun _ => sampleClient sampleWebTasks)
      [Event.tick, Event.timeout, Event.tick])
    [sampleWeb] [sampleWeb] 1 [Event.tick] rfl (by decide) rfl rfl
    (fun i _ => ⟨_, rfl, by decide⟩) (fun _ => rfl)
  refine ⟨?_, ?_, h.2⟩
  · rw [h.1]
  · rw [h.1]
    rfl

/-- C9. Empty watch list, on the code: when `ServiceList` returns an empty list the
goroutine is not started, no cycle executes and nothing is rendered or written; the main
loop of `runList` then blocks in its `select` on two channels on which nobody sends, and
`runList` does not return. -/
theorem C9_empty_watch_list_blocks (less : String → String → Bool) (api : Nat → APIClient)
    (events : List Event)
    (render : List Service → Option (GoMap WaitInfo) → Option Error)
    (write : String → Option Error) :
    runList
        { ServiceList := .ok [], NaturalLess := less, api := api, events := events
          WaitListFormatWrite := render, Write := write } =
      { outcome := Outcome.deadlock, loop := none, rendered := [], written := [] } := by
  simp [runList, sortServices]

/-- C10. Fetch error in cycle 0, on the code: for a non-empty watch list and a renderer
that does not fail, when `TaskList` or `NodeList` fails with `e` in cycle 0, the goroutine
discards the error, sends the nil map to the sink and dereferences the nil summary:
the run stops on that panic and `runList` does not return `e`. -/
theorem C10_first_fetch_error_panics (svc : Service) (others : List Service)
    (less : String → String → Bool) (api : Nat → APIClient) (events : List Event)
    (write : String → Option Error) (e : Error) (tasks : List Task)
    (nodes : Except Error (List Node)) :
    runList
        { ServiceList := .ok (svc :: others), NaturalLess := less
          api := fun i => if i = 0 then { TaskList := fun _ => .error e, NodeList := nodes }
            else api i
          events := events, WaitListFormatWrite := fun _ _ => none, Write := write } =
      { outcome := Outcome.crashed
        loop := some
          { state := LoopState.Panicked, cycles := 1, emitted := [none], handled := 0
            cancelled := false }
        rendered := [none], written := [] } ∧
    runList
        { ServiceList := .ok (svc :: others), NaturalLess := less
          api := fun i => if i = 0 then { TaskList := fun _ => .ok tasks, NodeList := .error e }
            else api i
          events := events, WaitListFormatWrite := fun _ _ => none, Write := write } =
      { outcome := Outcome.crashed
        loop := some
          { state := LoopState.Panicked, cycles := 1, emitted := [none], handled := 0
            cancelled := false }
        rendered := [none], written := [] } := by
  have hlen : (sortServices less (svc :: others)).length > 0 := by
    rw [sortServices_length]
    simp
  have hc1 : cycle0 (fun i => if i = 0 then
      ({ TaskList := fun _ => .error e, NodeList := nodes } : APIClient) else api i)
      (sortServices less (svc :: others)) =
      { state := LoopState.Panicked, cycles := 1, emitted := [none], handled := 0
        cancelled := false } := by
    simp [cycle0, collectServiceStatus, hlen, afterTest, completionTest]
  have hc2 : cycle0 (fun i => if i = 0 then
      ({ TaskList := fun _ => .ok tasks, NodeList := .error e } : APIClient) else api i)
      (sortServices less (svc :: others)) =
      { state := LoopState.Panicked, cycles := 1, emitted := [none], handled := 0
        cancelled := false } := by
    simp [cycle0, collectServiceStatus, hlen, afterTest, completionTest]
  constructor
  · unfold runList
    simp only [hlen, if_true, pollLoop, hc1]
    rw [foldl_step_of_stopped _ _ _ _ (by simp)]
    simp [renderAll]
  · unfold runList
    simp only [hlen, if_true, pollLoop, hc2]
    rw [foldl_step_of_stopped _ _ _ _ (by simp)]
    simp [renderAll]

/-- C11. Fetch error in a later cycle, on the code: when `TaskList` or `NodeList` fails in
the cycle of a tick, the goroutine discards the error, sends the nil map to the sink (a
snapshot is emitted) and dereferences the nil summary: it panics instead of going on to
the next event. In the sample run cycle 0 lags, the fetch of the first tick fails, and
the run stops there: the second tick and the timeout are never handled. -/
theorem C11_later_fetch_error_panics (svc : Service) (others : List Service)
    (api : Nat → APIClient) (emitted : List (Option (GoMap WaitInfo))) (n handled : Nat)
    (cancelled : Bool) (e : Error) (tasks : List Task) (nodes : Except Error (List Node)) :
    step (fun i => if i = n then { TaskList := fun _ => .error e, NodeList := nodes }
          else api i) (svc :: others)
        { state := LoopState.Running, cycles := n, emitted := emitted, handled := handled
          cancelled := cancelled } Event.tick =
      { state := LoopState.Panicked, cycles := n + 1, emitted := emitted ++ [none]
        handled := handled + 1, cancelled := cancelled } ∧
    step (fun i => if i = n then { TaskList := fun _ => .ok tasks, NodeList := .error e }
          else api i) (svc :: others)
        { state := LoopState.Running, cycles := n, emitted := emitted, handled := handled
          cancelled := cancelled } Event.tick =
      { state := LoopState.Panicked, cycles := n + 1, emitted := emitted ++ [none]
        handled := handled + 1, cancelled := cancelled } ∧
    (runList (sampleEnv [sampleWeb]
        (fun i => if i = 0 then sampleClient sampleWebTasks
          else sampleTaskListFailure { msg := "connection refused" })
        [Event.tick, Event.tick, Event.timeout])).outcome = Outcome.crashed ∧
    ((runList (sampleEnv [sampleWeb]
        (fun i => if i = 0 then sampleClient sampleWebTasks
          else sampleTaskListFailure { msg := "connection refused" })
        [Event.tick, Event.tick, Event.timeout])).loop.map
          (fun l => (l.state, l.handled, l.emitted.getLast?))) =
      some (LoopState.Panicked, 1, some none) := by
  refine ⟨?_, ?_, ?_, ?_⟩
  · simp [step, collectServiceStatus, afterTest, completionTest]
  · simp [step, collectServiceStatus, afterTest, completionTest]
  · decide
  · rfl

theorem status_summary_entry_sums (services : List Service) (nodes : List Node)
    (tasks : List Task) (hnd : (services.map Service.ID).Nodup) :
    (GetServicesWaitStatus services nodes tasks).2.Expected =
      ((GetServicesWaitStatus services nodes tasks).1.map (fun e => e.2.Expected)).sum % U64 ∧
    (GetServicesWaitStatus services nodes tasks).2.Running =
      ((GetServicesWaitStatus services nodes tasks).1.map (fun e => e.2.Running)).sum % U64 := by
  constructor
  · rw [status_summary_expected, status_info services nodes tasks hnd, List.map_map]
    congr 1
    exact (sum_map_filter_of_zero services Service.classified _ (fun s h => by
      simp [serviceEntry_of_not_classified _ s h, WaitInfo.zero])).symm
  · rw [status_summary_running, status_info services nodes tasks hnd, List.map_map]
    congr 1
    exact (sum_map_filter_of_zero services Service.classified _ (fun s h => by
      simp [serviceEntry_of_not_classified _ s h, WaitInfo.zero])).symm

/-- C13, as stated, fails: two services that want `2^63` replicas each and have no task
both lag, yet `summary.Expected` wraps around to 0 and the test `Expected <= Running`
holds. -/
theorem C13_lagging_counterexample :
    ¬ (∀ (services : List Service) (nodes : List Node) (tasks : List Task),
      (services.map Service.ID).Nodup →
      (∀ e ∈ (GetServicesWaitStatus services nodes tasks).1, e.2.Running ≤ e.2.Expected) →
      (∃ e ∈ (GetServicesWaitStatus services nodes tasks).1, e.2.Running < e.2.Expected) →
      ¬ ((GetServicesWaitStatus services nodes tasks).2.Expected ≤
        (GetServicesWaitStatus services nodes tasks).2.Running)) := by
  intro h
  exact h [sampleHuge "a", sampleHuge "b"] [] [] (by decide) (by decide) (by decide)
    (by decide)

/-- C13, amended. A lagging service keeps the wait going as long as the total does not
wrap around: with pairwise distinct service IDs, when no entry of the returned map has
`Running > Expected`, some entry has `Running < Expected`, and the sum of the `Expected`
fields is below `2^64`, the test `summary.Expected <= summary.Running` is false on the
returned summary and the cycle leaves the goroutine polling. -/
theorem C13_lagging_service_keeps_waiting (services : List Service) (nodes : List Node)
    (tasks : List Task) (hnd : (services.map Service.ID).Nodup)
    (hle : ∀ e ∈ (GetServicesWaitStatus services nodes tasks).1, e.2.Running ≤ e.2.Expected)
    (hlt : ∃ e ∈ (GetServicesWaitStatus services nodes tasks).1, e.2.Running < e.2.Expected)
    (hsum : ((GetServicesWaitStatus services nodes tasks).1.map
      (fun e => e.2.Expected)).sum < U64) :
    ¬ ((GetServicesWaitStatus services nodes tasks).2.Expected ≤
        (GetServicesWaitStatus services nodes tasks).2.Running) ∧
      afterTest (some (GetServicesWaitStatus services nodes tasks).2) = LoopState.Running := by
  obtain ⟨hE, hR⟩ := status_summary_entry_sums services nodes tasks hnd
  have hlt' := List.sum_lt_sum (fun e : String × WaitInfo => e.2.Running)
    (fun e : String × WaitInfo => e.2.Expected) hle hlt
  have hnot : ¬ ((GetServicesWaitStatus services nodes tasks).2.Expected ≤
      (GetServicesWaitStatus services nodes tasks).2.Running) := by
    rw [hE, hR, Nat.mod_eq_of_lt hsum, Nat.mod_eq_of_lt (lt_trans hlt' hsum)]
    omega
  exact ⟨hnot, afterTest_of_lag _ _ rfl hnot⟩

/-- Witness of C13: `web` has two of its three replicas running; the test fails. -/
theorem C13_lagging_service_keeps_waiting_witness :
    ¬ ((GetServicesWaitStatus [sampleWeb] sampleNodes sampleWebTasks).2.Expected ≤
        (GetServicesWaitStatus [sampleWeb] sampleNodes sampleWebTasks).2.Running) ∧
      afterTest (some (GetServicesWaitStatus [sampleWeb] sampleNodes sampleWebTasks).2) =
        LoopState.Running :=
  C13_lagging_service_keeps_waiting [sampleWeb] sampleNodes sampleWebTasks (by decide)
    (by decide) (by decide) (by decide)

theorem runList_of_cycle0_done (env : Env) (listed : List Service)
    (hlist : env.ServiceList = .ok listed) (hne : listed ≠ [])
    (hdone : (cycle0 env.api (sortServices env.NaturalLess listed)).state =
      LoopState.Completed)
    (hrender : ∀ info, env.WaitListFormatWrite (sortServices env.NaturalLess listed) info = none)
    (hwrite : env.Write "\nAll services booted up\n" = none) :
    (runList env).outcome = Outcome.returned none ∧
      (runList env).loop.map Loop.state = some LoopState.Completed := by
  have hlen : (sortServices env.NaturalLess listed).length > 0 := by
    rw [sortServices_length]
    exact List.length_pos.mpr hne
  have hloop : pollLoop env.api (sortServices env.NaturalLess listed) env.events =
      cycle0 env.api (sortServices env.NaturalLess listed) :=
    foldl_step_of_stopped _ _ _ _ (by rw [hdone]; simp)
  unfold runList
  simp only [hlist, hlen, if_true, hloop, renderAll_of_ok _ _ hrender, hdone, hwrite]
  simp [hdone]

/-- C14. Completion is decided on the totals: there are a service list, a node list and a
task list for which the returned map has a service with `Running = 0 < Expected` while
the returned summary passes the test `Expected <= Running`; on these snapshots cycle 0
ends the goroutine in `Completed` and `runList` returns no error, whatever the timers
do. (Here `cache` has two tasks running for one replica wanted, `db` none for one.) -/
theorem C14_completion_on_totals :
    ∃ (services : List Service) (nodes : List Node) (tasks : List Task) (s : Service)
      (w : WaitInfo),
      s ∈ services ∧
      (GetServicesWaitStatus services nodes tasks).1.get? s.ID = some w ∧
      w.Running = 0 ∧ 0 < w.Expected ∧
      (GetServicesWaitStatus services nodes tasks).2.Expected ≤
        (GetServicesWaitStatus services nodes tasks).2.Running ∧
      ∀ events : List Event,
        (runList
          { ServiceList := .ok services
            NaturalLess := sampleLess
            api := fun _ => { TaskList := fun _ => .ok tasks, NodeList := .ok nodes }
            events := events
            WaitListFormatWrite := fun _ _ => none
            Write := fun _ => none }).outcome = Outcome.returned none ∧
        (runList
          { ServiceList := .ok services
            NaturalLess := sampleLess
            api := fun _ => { TaskList := fun _ => .ok tasks, NodeList := .ok nodes }
            events := events
            WaitListFormatWrite := fun _ _ => none
            Write := fun _ => none }).loop.map Loop.state = some LoopState.Completed := by
  have hdone : (cycle0
      (fun _ => { TaskList := fun _ => .ok sampleCacheTasks, NodeList := .ok sampleNodes })
      (sortServices sampleLess [sampleCache, sampleDb])).state =
      LoopState.Completed := by decide
  refine ⟨[sampleCache, sampleDb], sampleNodes, sampleCacheTasks, sampleDb,
    { Mode := "replicated", Replicas := "0/1", Expected := 1, Running := 0 },
    by decide, by decide, rfl, by decide, by decide, ?_⟩
  intro events
  exact runList_of_cycle0_done _ [sampleCache, sampleDb] rfl (by decide) hdone
    (fun _ => rfl) rfl

/-- C15. Running may exceed Expected: for a replicated service that wants one replica
and has two tasks running on nodes that are up the entry has `Running = 2`,
`Expected = 1`; for a global service whose only task is observed running on a node that
is up with the desired state `shutdown` the entry has `Running = 1`, `Expected = 0`.
`Running` is not clamped, and no dereference fails on these inputs. -/
theorem C15_running_may_exceed_expected :
    (GetServicesWaitStatus [sampleCache] sampleNodes sampleCacheTasks).1.get? "cache" =
      some { Mode := "replicated", Replicas := "2/1", Expected := 1, Running := 2 } ∧
    (GetServicesWaitStatus [sampleGlobal "agent"] sampleNodes
        [sampleTask "agent" "n1" "shutdown" "running"]).1.get? "agent" =
      some { Mode := "global", Replicas := "1/0", Expected := 0, Running := 1 } ∧
    (GetServicesWaitStatusChecked [sampleCache] sampleNodes sampleCacheTasks).isSome = true ∧
    (GetServicesWaitStatusChecked [sampleGlobal "agent"] sampleNodes
        [sampleTask "agent" "n1" "shutdown" "running"]).isSome = true := by
  refine ⟨by decide, by decide, by decide, by decide⟩

/-- C18. Timeout wins over completion: for a non-empty watch list and a renderer that does
not fail, when cycle 0 and the cycles of the `k` ticks before the timeout event lag and
the snapshot fetched on the timeout passes the test `Expected <= Running`, that snapshot is
still emitted last, the goroutine ends in `TimedOut` and `runList` returns the error
`timeout reached while waiting for the services`. -/
theorem C18_timeout_wins (env : Env) (listed services : List Service) (k : Nat)
    (rest : List Event)
    (hlist : env.ServiceList = .ok listed) (hne : listed ≠ [])
    (hsv : services = sortServices env.NaturalLess listed)
    (hev : env.events = List.replicate k Event.tick ++ Event.timeout :: rest)
    (hlag : ∀ i ≤ k, ∃ s, (collectServiceStatus (env.api i) services).summary = some s ∧
      ¬ s.Expected ≤ s.Running)
    (hdone : ∃ s, (collectServiceStatus (env.api (k + 1)) services).summary = some s ∧
      s.Expected ≤ s.Running)
    (hrender : ∀ info, env.WaitListFormatWrite services info = none) :
    afterTest (collectServiceStatus (env.api (k + 1)) services).summary =
      LoopState.Completed ∧
    (runList env).outcome = Outcome.returned
      (some { msg := "timeout reached while waiting for the services" }) ∧
    (runList env).loop.map Loop.state = some LoopState.TimedOut ∧
    (runList env).rendered.getLast? =
      some (collectServiceStatus (env.api (k + 1)) services).info ∧
    (runList env).written = ["\n"] := by
  obtain ⟨sd, hsd, hd⟩ := hdone
  have hrun : pollLoop env.api services (List.replicate k Event.tick) =
      { state := LoopState.Running, cycles := k + 1
        emitted := (List.range (k + 1)).map
          (fun i => (collectServiceStatus (env.api i) services).info)
        handled := k, cancelled := false } := by
    apply pollLoop_ticks
    intro i hi
    obtain ⟨s, hs, hl⟩ := hlag i hi
    exact afterTest_of_lag _ s hs hl
  have hloop : pollLoop env.api services env.events =
      { state := LoopState.TimedOut, cycles := k + 2
        emitted := (List.range (k + 1)).map
            (fun i => (collectServiceStatus (env.api i) services).info) ++
          [(collectServiceStatus (env.api (k + 1)) services).info]
        handled := k + 1, cancelled := true } := by
    rw [hev, pollLoop_append, hrun, List.foldl_cons]
    have hstep : step env.api services
        { state := LoopState.Running, cycles := k + 1
          emitted := (List.range (k + 1)).map
            (fun i => (collectServiceStatus (env.api i) services).info)
          handled := k, cancelled := false } Event.timeout =
        { state := LoopState.TimedOut, cycles := k + 2
          emitted := (List.range (k + 1)).map
              (fun i => (collectServiceStatus (env.api i) services).info) ++
            [(collectServiceStatus (env.api (k + 1)) services).info]
          handled := k + 1, cancelled := true } := by
      simp [step]
    rw [hstep]
    exact foldl_step_of_stopped _ _ _ _ (by simp)
  have hlen : (sortServices env.NaturalLess listed).length > 0 := by
    rw [sortServices_length]
    exact List.length_pos.mpr hne
  have hres : runList env =
      { outcome := Outcome.returned
          (some { msg := "timeout reached while waiting for the services" })
        loop := some
          { state := LoopState.TimedOut, cycles := k + 2
            emitted := (List.range (k + 1)).map
                (fun i => (collectServiceStatus (env.api i) services).info) ++
              [(collectServiceStatus (env.api (k + 1)) services).info]
            handled := k + 1, cancelled := true }
        rendered := (List.range (k + 1)).map
            (fun i => (collectServiceStatus (env.api i) services).info) ++
          [(collectServiceStatus (env.api (k + 1)) services).info]
        written := ["\n"] } := by
    subst hsv
    unfold runList
    simp only [hlist, hlen, if_true, hloop, renderAll_of_ok _ _ hrender, timeoutError]
  refine ⟨afterTest_of_done _ sd hsd hd, ?_, ?_, ?_, ?_⟩
  · rw [hres]
  · rw [hres]
    rfl
  · rw [hres]
    simp
  · rw [hres]

/-- Witness of C18: cycle 0 sees two of the three replicas of `web`, the cycle of the
timeout sees all three; the run still ends in `TimedOut` with the timeout error. -/
theorem C18_timeout_wins_witness :
    (runList (sampleEnv [sampleWeb]
        (fun i => if i = 0 then sampleClient sampleWebTasks else sampleClient sampleWebTasksUp)
        [Event.timeout])).outcome =
      Outcome.returned (some { msg := "timeout reached while waiting for the services" }) ∧
    afterTest (collectServiceStatus (sampleClient sampleWebTasksUp) [sampleWeb]).summary =
      LoopState.Completed := by
  have h := C18_timeout_wins (sampleEnv [sampleWeb]
      (fun i => if i = 0 then sampleClient sampleWebTasks else sampleClient sampleWebTasksUp)
      [Event.timeout])
    [sampleWeb] [sampleWeb] 0 [] rfl (by decide) rfl rfl
    (by
      intro i hi
      have hi0 : i = 0 := by omega
      subst hi0
      exact ⟨_, rfl, by decide⟩)
    ⟨_, rfl, by decide⟩ (fun _ => rfl)
  exact ⟨h.2.1, h.1⟩

/-! ## Order of the snapshots, and dereferences -/

theorem nodeActive_perm (nodes nodes' : List Node) (h : nodes.Perm nodes') (id : String) :
    nodeActive nodes id = nodeActive nodes' id := by
  rw [Bool.eq_iff_iff, nodeActive_iff, nodeActive_iff]
  constructor
  · rintro ⟨n, hn, hp⟩
    exact ⟨n, h.mem_iff.mp hn, hp⟩
  · rintro ⟨n, hn, hp⟩
    exact ⟨n, h.mem_iff.mpr hn, hp⟩

theorem runningCount_perm (nodes nodes' : List Node) (tasks tasks' : List Task)
    (hn : nodes.Perm nodes') (ht : tasks.Perm tasks') (id : String) :
    runningCount nodes tasks id = runningCount nodes' tasks' id := by
  unfold runningCount
  rw [ht.countP_eq]
  congr 1
  funext t
  rw [nodeActive_perm nodes nodes' hn]

theorem noShutdownCount_perm (tasks tasks' : List Task) (ht : tasks.Perm tasks')
    (id : String) : noShutdownCount tasks id = noShutdownCount tasks' id := by
  unfold noShutdownCount
  exact ht.countP_eq _

/-- The third loop reads the counters only through the lookups of service IDs. -/
theorem addService_congr (c c' : Counters)
    (hr : ∀ k, c.running.getD k 0 = c'.running.getD k 0)
    (hn : ∀ k, c.tasksNoShutdown.getD k 0 = c'.tasksNoShutdown.getD k 0)
    (st : Status) (s : Service) : addService c st s = addService c' st s := by
  unfold addService
  simp only [hr s.ID, hn s.ID]

theorem foldl_addService_congr (c c' : Counters)
    (hr : ∀ k, c.running.getD k 0 = c'.running.getD k 0)
    (hn : ∀ k, c.tasksNoShutdown.getD k 0 = c'.tasksNoShutdown.getD k 0)
    (l : List Service) (st : Status) :
    l.foldl (addService c) st = l.foldl (addService c') st := by
  induction l generalizing st with
  | nil => rfl
  | cons s r ih => rw [List.foldl_cons, List.foldl_cons, addService_congr c c' hr hn, ih]

/-- C19. Order of the snapshots: replacing the node list and the task list by
permutations of them leaves the returned map and the returned summary unchanged. -/
theorem C19_order_independent (services : List Service) (nodes nodes' : List Node)
    (tasks tasks' : List Task) (hn : nodes.Perm nodes') (ht : tasks.Perm tasks') :
    GetServicesWaitStatus services nodes tasks = GetServicesWaitStatus services nodes' tasks' := by
  have hc := foldl_addService_congr (countTasks (activeNodes nodes) tasks)
    (countTasks (activeNodes nodes') tasks')
    (fun k => by
      rw [countTasks_running, countTasks_running, runningCount_perm nodes nodes' tasks tasks' hn ht])
    (fun k => by
      rw [countTasks_noShutdown, countTasks_noShutdown, noShutdownCount_perm tasks tasks' ht])
    services { info := GoMap.empty, summary := WaitInfoSummary.zero }
  simp only [GetServicesWaitStatus, hc]

/-- Witness of C19: the sample nodes and the tasks of `web` and `agent`, reversed. -/
theorem C19_order_independent_witness :
    GetServicesWaitStatus [sampleWeb, sampleGlobal "agent"] sampleNodes.reverse
        (sampleWebTasks ++ sampleAgentTasks).reverse =
      GetServicesWaitStatus [sampleWeb, sampleGlobal "agent"] sampleNodes
        (sampleWebTasks ++ sampleAgentTasks) :=
  C19_order_independent [sampleWeb, sampleGlobal "agent"] sampleNodes.reverse sampleNodes
    (sampleWebTasks ++ sampleAgentTasks).reverse (sampleWebTasks ++ sampleAgentTasks)
    (List.reverse_perm _) (List.reverse_perm _)

theorem addServiceChecked_eq (c : Counters) (st : Status) (s : Service) :
    addServiceChecked c st s = some (addService c st s) := by
  unfold addServiceChecked addService replicatedTest placementTest derefReplicas
    derefMaxReplicas deref
  cases hr : s.Spec.Mode.Replicated with
  | none => cases hg : s.Spec.Mode.Global <;> simp
  | some r =>
    cases hd : r.Replicas with
    | none => cases hg : s.Spec.Mode.Global <;> simp [hd]
    | some d =>
      cases hp : s.Spec.TaskTemplate.Placement with
      | none => simp [hd, Option.filter]
      | some p =>
        by_cases hm : 0 < p.MaxReplicas
        · simp [hd, hm, Option.filter]
        · simp [hd, hm, Option.filter]

theorem addServicesChecked_eq (c : Counters) (l : List Service) (st : Status) :
    addServicesChecked c st l = some (l.foldl (addService c) st) := by
  induction l generalizing st with
  | nil => rfl
  | cons s r ih => simp [addServicesChecked, addServiceChecked_eq, ih]

/-- C20. Totality: on every service list, node list and task list the aggregator written
with its pointer dereferences never dereferences nil, and it returns the map and the
summary of `GetServicesWaitStatus`: each dereference of `Replicated`, of
`Replicated.Replicas` and of `Placement` sits behind its nil test. -/
theorem C20_no_nil_dereference (services : List Service) (nodes : List Node)
    (tasks : List Task) :
    GetServicesWaitStatusChecked services nodes tasks =
      some (GetServicesWaitStatus services nodes tasks) := by
  simp [GetServicesWaitStatusChecked, GetServicesWaitStatus, addServicesChecked_eq]

/-! ## The snapshot fetcher: the claim -/

theorem GoMap.keys_set_nodup {V : Type} (m : GoMap V) (k : String) (v : V)
    (h : m.keys.Nodup) : (m.set k v).keys.Nodup := by
  induction m with
  | nil => simp [GoMap.set, GoMap.keys]
  | cons a r ih =>
    obtain ⟨k₀, v₀⟩ := a
    have h' : k₀ ∉ GoMap.keys r ∧ (GoMap.keys r).Nodup := by
      simpa [GoMap.keys] using h
    by_cases h₀ : k₀ = k
    · subst h₀
      simpa [GoMap.set, GoMap.keys] using h
    · have hnot : k₀ ∉ GoMap.keys (GoMap.set r k v) := by
        rw [GoMap.keys_set]
        rintro (e | e)
        · exact h₀ e
        · exact h'.1 e
      have hnd : (GoMap.keys (GoMap.set r k v)).Nodup := ih h'.2
      simp only [GoMap.set, h₀, if_false]
      exact List.nodup_cons.mpr ⟨hnot, hnd⟩

/-- The set of values that `Add("service", id)` builds over the services, from `vals`. -/
theorem foldl_add_service (services : List Service) (vals : GoMap Bool) :
    services.foldl (fun f service => Args.Add f "service" service.ID) [("service", vals)] =
      [("service", services.foldl (fun m service => GoMap.set m service.ID true) vals)] := by
  induction services generalizing vals with
  | nil => rfl
  | cons s r ih =>
    rw [List.foldl_cons, List.foldl_cons, ← ih]
    congr 1

theorem foldl_set_true (services : List Service) (vals : GoMap Bool)
    (hnd : vals.keys.Nodup) (htrue : ∀ id ∈ vals.keys, vals.get? id = some true) :
    (services.foldl (fun m service => GoMap.set m service.ID true) vals).keys.Nodup ∧
    (∀ id, id ∈ (services.foldl (fun m service => GoMap.set m service.ID true) vals).keys ↔
      id ∈ vals.keys ∨ id ∈ services.map Service.ID) ∧
    (∀ id ∈ (services.foldl (fun m service => GoMap.set m service.ID true) vals).keys,
      (services.foldl (fun m service => GoMap.set m service.ID true) vals).get? id =
        some true) := by
  induction services generalizing vals with
  | nil => simpa using ⟨hnd, htrue⟩
  | cons s r ih =>
    have hnd' := GoMap.keys_set_nodup vals s.ID true hnd
    have htrue' : ∀ id ∈ (GoMap.set vals s.ID true).keys,
        (GoMap.set vals s.ID true).get? id = some true := by
      intro id hid
      by_cases he : s.ID = id
      · subst he
        exact GoMap.get?_set_self vals s.ID true
      · rw [GoMap.get?_set_ne vals s.ID id true he]
        rcases (GoMap.keys_set vals s.ID id true).mp hid with e | e
        · exact absurd e.symm he
        · exact htrue id e
    obtain ⟨h1, h2, h3⟩ := ih (GoMap.set vals s.ID true) hnd' htrue'
    refine ⟨h1, fun id => ?_, h3⟩
    rw [List.foldl_cons, h2, GoMap.keys_set]
    simp only [List.map_cons, List.mem_cons]
    tauto

/-- C17. The snapshot fetcher. For a non-empty service list: the task filter has the single
name `service`, whose values are exactly the watched service IDs, each once; when
`TaskList` fails its error is returned unchanged with a nil map and a nil summary and
`NodeList` is not called; when `NodeList` fails its error is returned likewise; an error
is returned exactly when one of the two fails; otherwise the result is that of
`GetServicesWaitStatus` on the fetched nodes and tasks, with a nil error. For an empty
service list no call is made and an empty map, a zero summary and a nil error come back. -/
theorem C17_collectServiceStatus (client : APIClient) (services : List Service) :
    (services ≠ [] →
      (∃ vals : GoMap Bool, taskFilter services = [("service", vals)] ∧
        vals.keys.Nodup ∧ (∀ id, id ∈ vals.keys ↔ id ∈ services.map Service.ID) ∧
        (∀ id ∈ vals.keys, vals.get? id = some true)) ∧
      (∀ e, client.TaskList (taskFilter services) = .error e →
        collectServiceStatus client services =
          { info := none, summary := none, err := some e
            calls := [ApiCall.taskList (taskFilter services)] }) ∧
      (∀ tasks e, client.TaskList (taskFilter services) = .ok tasks →
        client.NodeList = .error e →
        collectServiceStatus client services =
          { info := none, summary := none, err := some e
            calls := [ApiCall.taskList (taskFilter services), ApiCall.nodeList] }) ∧
      (∀ tasks nodes, client.TaskList (taskFilter services) = .ok tasks →
        client.NodeList = .ok nodes →
        collectServiceStatus client services =
          { info := some (GetServicesWaitStatus services nodes tasks).1
            summary := some (GetServicesWaitStatus services nodes tasks).2
            err := none
            calls := [ApiCall.taskList (taskFilter services), ApiCall.nodeList] }) ∧
      ((collectServiceStatus client services).err ≠ none ↔
        (∃ e, client.TaskList (taskFilter services) = .error e) ∨
          ∃ e, client.NodeList = .error e)) ∧
    (services = [] →
      collectServiceStatus client services =
        { info := some [], summary := some { Expected := 0, Running := 0 }, err := none
          calls := [] }) := by
  constructor
  · intro hne
    have hlen : services.length > 0 := List.length_pos.mpr hne
    refine ⟨?_, ?_, ?_, ?_, ?_⟩
    · obtain ⟨s, r, rfl⟩ := List.exists_cons_of_ne_nil hne
      have hfirst : taskFilter (s :: r) =
          [("service", r.foldl (fun m service => GoMap.set m service.ID true)
            [(s.ID, true)])] := by
        unfold taskFilter
        rw [List.foldl_cons]
        exact foldl_add_service r [(s.ID, true)]
      obtain ⟨h1, h2, h3⟩ := foldl_set_true r [(s.ID, true)] (by simp [GoMap.keys])
        (by
          intro id hid
          have : id = s.ID := by simpa [GoMap.keys] using hid
          subst this
          simp [GoMap.get?])
      refine ⟨_, hfirst, h1, fun id => ?_, h3⟩
      rw [h2]
      simp [GoMap.keys]
    · intro e he
      simp [collectServiceStatus, hlen, he]
    · intro tasks e ht he
      simp [collectServiceStatus, hlen, ht, he]
    · intro tasks nodes ht hn
      simp [collectServiceStatus, hlen, ht, hn]
    · cases ht : client.TaskList (taskFilter services) with
      | error e => simp [collectServiceStatus, hlen, ht]
      | ok tasks =>
        cases hn : client.NodeList with
        | error e => simp [collectServiceStatus, hlen, ht, hn]
        | ok nodes => simp [collectServiceStatus, hlen, ht, hn]
  · intro he
    subst he
    rfl

/-- Witness of C17: for the watch list `web`, `agent` the filter is
`service = {web, agent}`, and the result is that of the aggregator on the answers. -/
theorem C17_collectServiceStatus_witness :
    taskFilter [sampleWeb, sampleGlobal "agent"] =
        [("service", [("web", true), ("agent", true)])] ∧
      collectServiceStatus (sampleClient sampleWebTasks) [sampleWeb, sampleGlobal "agent"] =
        { info := some (GetServicesWaitStatus [sampleWeb, sampleGlobal "agent"] sampleNodes
            sampleWebTasks).1
          summary := some (GetServicesWaitStatus [sampleWeb, sampleGlobal "agent"] sampleNodes
            sampleWebTasks).2
          err := none
          calls := [ApiCall.taskList (taskFilter [sampleWeb, sampleGlobal "agent"]),
            ApiCall.nodeList] } :=
  ⟨by decide,
    ((C17_collectServiceStatus (sampleClient sampleWebTasks)
      [sampleWeb, sampleGlobal "agent"]).1 (by decide)).2.2.2.1 sampleWebTasks sampleNodes
      rfl rfl⟩

/-! ## The duration options and the flags of `wait`: the claims -/

/-- What `PositiveDurationOpt.Set` does on every string: when the parsed duration is
negative it returns an error; when it returns no error the stored duration, which `Value`
returns, is the parsed one, the parser reported no error and the duration is not below
zero; and it never dereferences a nil `value`. -/
theorem positiveDurationOpt_set_cases (parse : String → Duration × Option Error)
    (d : PositiveDurationOpt) (s : String) :
    ((parse s).1 < 0 → ∃ d' err, PositiveDurationOpt.Set parse d s = some (d', some err)) ∧
    (∀ d', PositiveDurationOpt.Set parse d s = some (d', none) →
      d'.Value = some (parse s).1 ∧ 0 ≤ (parse s).1 ∧ (parse s).2 = none) ∧
    PositiveDurationOpt.Set parse d s ≠ none := by
  unfold PositiveDurationOpt.Set DurationOpt.Set deref
  cases he : (parse s).2 with
  | some e => simp
  | none =>
    by_cases hneg : (parse s).1 < 0
    · simp [hneg]
    · simp only [Option.bind, hneg, if_false]
      refine ⟨fun h => by first | exact absurd h hneg | exact h.elim, ?_, by simp⟩
      intro d' hd'
      simp only [Option.some.injEq, Prod.mk.injEq, and_true] at hd'
      subst hd'
      exact ⟨rfl, Int.not_lt.mp hneg, trivial⟩

/-- C16, on the code: `PositiveDurationOpt.Set` returns an error on `-1s`, whose duration
is negative, but on `0s`, which parses to the duration 0, it returns no error and stores
0, which `Value` then returns: a duration that is not positive is allowed, since the
guard of `Set` is `value < 0`. -/
theorem C16_zero_stored_without_error :
    PositiveDurationOpt.Set sampleParseDuration { DurationOpt := { value := none } } "0s" =
      some ({ DurationOpt := { value := some 0 } }, none) ∧
    ({ DurationOpt := { value := some 0 } } : PositiveDurationOpt).Value = some 0 ∧
    ¬ ((0 : Duration) < 0) ∧
    PositiveDurationOpt.Set sampleParseDuration { DurationOpt := { value := none } } "-1s" =
      some ({ DurationOpt := { value := some (-1000000000) } },
        some { msg := "duration cannot be negative" }) := by
  refine ⟨by decide, rfl, by decide, by decide⟩

theorem setDurationFlags_of_ok (parse : String → Duration × Option Error)
    (args : List DurationFlag) (o : waitOptions)
    (h : ∀ f ∈ args, (parse f.value).2 = none) :
    ∃ options, setDurationFlags parse o args = .ok options := by
  induction args generalizing o with
  | nil => exact ⟨o, rfl⟩
  | cons f r ih =>
    have hf : (parse f.value).2 = none := h f (by simp)
    have hr : ∀ g ∈ r, (parse g.value).2 = none := fun g hg => h g (by simp [hg])
    cases f with
    | timeout v =>
      have hv : (parse v).2 = none := hf
      obtain ⟨options, ho⟩ := ih { o with timeout := (parse v).1 } hr
      exact ⟨options, by simp [setDurationFlags, setDurationFlag, hv, ho]⟩
    | interval v =>
      have hv : (parse v).2 = none := hf
      obtain ⟨options, ho⟩ := ih { o with interval := (parse v).1 } hr
      exact ⟨options, by simp [setDurationFlags, setDurationFlag, hv, ho]⟩

theorem setDurationFlags_of_error (parse : String → Duration × Option Error)
    (args : List DurationFlag) (o : waitOptions)
    (h : ∃ f ∈ args, (parse f.value).2 ≠ none) :
    ∃ flag e, setDurationFlags parse o args = .error (flag, e) := by
  induction args generalizing o with
  | nil =>
    obtain ⟨f, hf, _⟩ := h
    simp at hf
  | cons f r ih =>
    cases hs : setDurationFlag parse o f with
    | error fe => exact ⟨fe.1, fe.2, by simp [setDurationFlags, hs]⟩
    | ok o1 =>
      have hf : (parse f.value).2 = none := by
        cases f with
        | timeout v =>
          cases hv : (parse v).2 with
          | none => exact hv
          | some e => simp [setDurationFlag, hv] at hs
        | interval v =>
          cases hv : (parse v).2 with
          | none => exact hv
          | some e => simp [setDurationFlag, hv] at hs
      have hr : ∃ g ∈ r, (parse g.value).2 ≠ none := by
        obtain ⟨g, hg, hne⟩ := h
        rcases List.mem_cons.mp hg with rfl | hg'
        · exact absurd hf hne
        · exact ⟨g, hg', hne⟩
      obtain ⟨flag, e, he⟩ := ih o1 hr
      exact ⟨flag, e, by simp [setDurationFlags, hs, he]⟩

/-- C12, as stated, fails: the command `wait --timeout=-1s` is not rejected; `runList`
runs with the timeout of minus one second, and two cycles are executed (cycle 0 and the
cycle of the timeout, which fires at once). -/
theorem C12_negative_timeout_accepted :
    newWaitCommand sampleParseDuration [DurationFlag.timeout "-1s"]
        (sampleEnv [sampleWeb] (fun _ => sampleClient sampleWebTasks) [Event.timeout]) =
      Invocation.ran
        { quiet := false, format := "", interval := 60000000000, timeout := -1000000000 }
        (runList
          (sampleEnv [sampleWeb] (fun _ => sampleClient sampleWebTasks) [Event.timeout])) ∧
    (runList (sampleEnv [sampleWeb] (fun _ => sampleClient sampleWebTasks)
      [Event.timeout])).loop.map Loop.cycles = some 2 := by
  constructor
  · rfl
  · rfl

/-- C12, amended. The command `wait` checks its durations through the duration parser
only: it is rejected before `runList` when the argument of some `--timeout` or
`--interval` flag does not parse; when every argument parses, `runList` is run, and a
parsed timeout and interval, negative ones included, are the ones of its options. -/
theorem C12_flags_checked_by_parser_only (parse : String → Duration × Option Error)
    (args : List DurationFlag) (env : Env) :
    ((∀ f ∈ args, (parse f.value).2 = none) →
      ∃ options, newWaitCommand parse args env = Invocation.ran options (runList env)) ∧
    ((∃ f ∈ args, (parse f.value).2 ≠ none) →
      ∃ flag e, newWaitCommand parse args env = Invocation.rejected flag e) ∧
    (∀ t i : String, (parse t).2 = none → (parse i).2 = none →
      newWaitCommand parse [DurationFlag.timeout t, DurationFlag.interval i] env =
        Invocation.ran
          { quiet := false, format := "", interval := (parse i).1, timeout := (parse t).1 }
          (runList env)) := by
  refine ⟨?_, ?_, ?_⟩
  · intro h
    obtain ⟨options, ho⟩ := setDurationFlags_of_ok parse args defaultWaitOptions h
    exact ⟨options, by simp [newWaitCommand, ho]⟩
  · intro h
    obtain ⟨flag, e, he⟩ := setDurationFlags_of_error parse args defaultWaitOptions h
    exact ⟨flag, e, by simp [newWaitCommand, he]⟩
  · intro t i ht hi
    simp [newWaitCommand, setDurationFlags, setDurationFlag, ht, hi, defaultWaitOptions]

/-- Witness of C12: a timeout and an interval of minus one second are accepted, and an
argument that is no duration is rejected. -/
theorem C12_flags_checked_by_parser_only_witness :
    newWaitCommand sampleParseDuration
        [DurationFlag.timeout "-1s", DurationFlag.interval "-1s"]
        (sampleEnv [sampleWeb] (fun _ => sampleClient sampleWebTasks) [Event.timeout]) =
      Invocation.ran
        { quiet := false, format := "", interval := -1000000000, timeout := -1000000000 }
        (runList
          (sampleEnv [sampleWeb] (fun _ => sampleClient sampleWebTasks) [Event.timeout])) ∧
    ∃ flag e, newWaitCommand sampleParseDuration [DurationFlag.timeout "soon"]
        (sampleEnv [sampleWeb] (fun _ => sampleClient sampleWebTasks) [Event.timeout]) =
      Invocation.rejected flag e :=
  ⟨(C12_flags_checked_by_parser_only sampleParseDuration
      [DurationFlag.timeout "-1s", DurationFlag.interval "-1s"]
      (sampleEnv [sampleWeb] (fun _ => sampleClient sampleWebTasks) [Event.timeout])).2.2
      "-1s" "-1s" (by decide) (by decide),
    (C12_flags_checked_by_parser_only sampleParseDuration [DurationFlag.timeout "soon"]
      (sampleEnv [sampleWeb] (fun _ => sampleClient sampleWebTasks) [Event.timeout])).2.1
      ⟨DurationFlag.timeout "soon", by simp, by decide⟩⟩

end DockerUtils
